import Mathlib

/-!
# Verification of the Sendly Python SDK resource facades

Shallow embedding of `sendly/resources/{campaigns,contacts,media,verify}.py`.
JSON values are modelled by an inductive `Value`; Python dicts by insertion
ordered association lists; fallible reshaping (Python `KeyError` /
`TypeError` / wrapped pydantic failures) by `Except SdkError`.
-/

/-- A JSON value, as produced by parsing a server response body. -/
inductive Value where
  | null
  | bool (b : Bool)
  | int (n : Int)
  | str (s : String)
  | arr (xs : List Value)
  | obj (fields : List (String × Value))
deriving Repr

/-- A Python dict with string keys, in insertion order. -/
abbrev Obj := List (String × Value)

/-- First-match association-list lookup (Python dict key lookup). -/
def lookupKey : Obj → String → Option Value
  | [], _ => none
  | (k, v) :: rest, key => if k = key then some v else lookupKey rest key

/-- The keys of a dict, in insertion order. -/
def objKeys (m : Obj) : List String := m.map Prod.fst

/-- Python truthiness of a JSON value: `None`, `False`, `0`, `""`, `[]`, `{}`
are falsy, everything else truthy. -/
def valueTruthy : Value → Bool
  | .null => false
  | .bool b => b
  | .int n => n != 0
  | .str s => !s.isEmpty
  | .arr xs => !xs.isEmpty
  | .obj fs => !fs.isEmpty

/-- Errors that can escape a facade's response-reshaping step:
a raw Python `KeyError`, a raw `TypeError` (indexing a non-dict /
iterating a non-list), or a typed `SendlyError` raised by the facade. -/
inductive SdkError where
  | keyError (k : String)
  | typeError
  | sendlyError (message : String) (code : String) (statusCode : Nat)
deriving Repr, DecidableEq

/-- `data[k]` on a JSON value: `KeyError` when the key is absent,
`TypeError` when `data` is not a dict. -/
def getItem (v : Value) (k : String) : Except SdkError Value :=
  match v with
  | .obj fs =>
    match lookupKey fs k with
    | some w => .ok w
    | none => .error (.keyError k)
  | _ => .error .typeError

/-- `data.get(k, default)` on a JSON value: the default when the key is
absent, `TypeError` when `data` is not a dict. -/
def getItemD (v : Value) (k : String) (d : Value) : Except SdkError Value :=
  match v with
  | .obj fs => .ok ((lookupKey fs k).getD d)
  | _ => .error .typeError

/-- `data.get(k)` (default `None`). -/
def getItemOpt (v : Value) (k : String) : Except SdkError Value :=
  getItemD v k .null

/-- Left-to-right effectful map over a list (a Python list comprehension
whose element expression may raise): first error wins. -/
def mapE (f : Value → Except SdkError α) : List Value → Except SdkError (List α)
  | [] => .ok []
  | x :: xs =>
    match f x with
    | .error e => .error e
    | .ok y =>
      match mapE f xs with
      | .error e => .error e
      | .ok ys => .ok (y :: ys)

/-- Iterating `for x in v`: requires a JSON array (`TypeError` otherwise;
Python would fault on the per-element indexing for the other truthy types). -/
def asArr (v : Value) : Except SdkError (List Value) :=
  match v with
  | .arr xs => .ok xs
  | _ => .error .typeError

/-- Truthiness of an `Optional[str]` argument (`if s:`). -/
def strOptTruthy : Option String → Bool
  | none => false
  | some s => !s.isEmpty

/-- Truthiness of an `Optional[int]` argument (`if n:`). -/
def intOptTruthy : Option Int → Bool
  | none => false
  | some n => n != 0

/-- Truthiness of an `Optional[List[str]]` argument. -/
def strListOptTruthy : Option (List String) → Bool
  | none => false
  | some xs => !xs.isEmpty

/-- Truthiness of an `Optional[Dict[str, Any]]` argument. -/
def objOptTruthy : Option Obj → Bool
  | none => false
  | some m => !m.isEmpty

/-- An outbound JSON request as handed to `HttpClient.request`. -/
structure RequestDescriptor where
  method : String
  path : String
  jsonBody : Option Obj
  params : Option Obj
deriving Repr

/-! ## Campaigns resource (sync), `sendly/resources/campaigns.py` -/

/-- Request body of `CampaignsResource.create` (campaigns.py lines 49-55). -/
def campaignsCreateBody (name text : String) (contact_list_ids : List String)
    (template_id : Option String) : Obj :=
  let body : Obj := [("name", .str name), ("text", .str text),
    ("contactListIds", .arr (contact_list_ids.map Value.str))]
  if strOptTruthy template_id then
    body ++ [("templateId", .str (template_id.getD ""))]
  else body

/-- Request of `CampaignsResource.create` (campaigns.py line 57). -/
def campaignsCreateRequest (name text : String) (contact_list_ids : List String)
    (template_id : Option String) : RequestDescriptor :=
  { method := "POST", path := "/campaigns",
    jsonBody := some (campaignsCreateBody name text contact_list_ids template_id),
    params := none }

/-- Query params dict of `CampaignsResource.list` (campaigns.py lines 76-82). -/
def campaignsListParams (limit offset : Option Int) (status : Option String) : Obj :=
  let ps : Obj := []
  let ps := if intOptTruthy limit then ps ++ [("limit", .int (limit.getD 0))] else ps
  let ps := if intOptTruthy offset then ps ++ [("offset", .int (offset.getD 0))] else ps
  let ps := if strOptTruthy status then ps ++ [("status", .str (status.getD ""))] else ps
  ps

/-- Request of `CampaignsResource.list` (campaigns.py line 84):
`params=params if params else None`. -/
def campaignsListRequest (limit offset : Option Int) (status : Option String) :
    RequestDescriptor :=
  let ps := campaignsListParams limit offset status
  { method := "GET", path := "/campaigns", jsonBody := none,
    params := if ps.isEmpty then none else some ps }

/-- Request of `CampaignsResource.get`. -/
def campaignsGetRequest (campaign_id : String) : RequestDescriptor :=
  { method := "GET", path := "/campaigns/" ++ campaign_id, jsonBody := none, params := none }

/-- Request body of `CampaignsResource.update` (campaigns.py lines 107-115):
`is not None` tests, so present-but-empty values are kept. -/
def campaignsUpdateBody (name text template_id : Option String)
    (contact_list_ids : Option (List String)) : Obj :=
  let body : Obj := []
  let body := match name with
    | some n => body ++ [("name", .str n)]
    | none => body
  let body := match text with
    | some t => body ++ [("text", .str t)]
    | none => body
  let body := match template_id with
    | some t => body ++ [("templateId", .str t)]
    | none => body
  let body := match contact_list_ids with
    | some ids => body ++ [("contactListIds", .arr (ids.map Value.str))]
    | none => body
  body

/-- Request of `CampaignsResource.update`. -/
def campaignsUpdateRequest (campaign_id : String) (name text template_id : Option String)
    (contact_list_ids : Option (List String)) : RequestDescriptor :=
  { method := "PATCH", path := "/campaigns/" ++ campaign_id,
    jsonBody := some (campaignsUpdateBody name text template_id contact_list_ids),
    params := none }

/-- Request of `CampaignsResource.delete`. -/
def campaignsDeleteRequest (campaign_id : String) : RequestDescriptor :=
  { method := "DELETE", path := "/campaigns/" ++ campaign_id, jsonBody := none, params := none }

/-- Request of `CampaignsResource.preview`. -/
def campaignsPreviewRequest (campaign_id : String) : RequestDescriptor :=
  { method := "GET", path := "/campaigns/" ++ campaign_id ++ "/preview",
    jsonBody := none, params := none }

/-- Request of `CampaignsResource.send`. -/
def campaignsSendRequest (campaign_id : String) : RequestDescriptor :=
  { method := "POST", path := "/campaigns/" ++ campaign_id ++ "/send",
    jsonBody := none, params := none }

/-- Request body of `CampaignsResource.schedule` (campaigns.py lines 158-160). -/
def campaignsScheduleBody (scheduled_at : String) (timezone : Option String) : Obj :=
  let body : Obj := [("scheduledAt", .str scheduled_at)]
  if strOptTruthy timezone then body ++ [("timezone", .str (timezone.getD ""))] else body

/-- Request of `CampaignsResource.schedule`. -/
def campaignsScheduleRequest (campaign_id scheduled_at : String)
    (timezone : Option String) : RequestDescriptor :=
  { method := "POST", path := "/campaigns/" ++ campaign_id ++ "/schedule",
    jsonBody := some (campaignsScheduleBody scheduled_at timezone), params := none }

/-- Request of `CampaignsResource.cancel`. -/
def campaignsCancelRequest (campaign_id : String) : RequestDescriptor :=
  { method := "POST", path := "/campaigns/" ++ campaign_id ++ "/cancel",
    jsonBody := none, params := none }

/-- Request of `CampaignsResource.clone`. -/
def campaignsCloneRequest (campaign_id : String) : RequestDescriptor :=
  { method := "POST", path := "/campaigns/" ++ campaign_id ++ "/clone",
    jsonBody := none, params := none }

/-- The `Campaign` typed response object; field set read off the keyword
arguments of the `Campaign(...)` call in `_transform_campaign`. Fields hold
the raw JSON values placed there by the transform (`None` as `Value.null`). -/
structure Campaign where
  id : Value
  name : Value
  text : Value
  template_id : Value
  contact_list_ids : Value
  status : Value
  recipient_count : Value
  sent_count : Value
  delivered_count : Value
  failed_count : Value
  estimated_credits : Value
  credits_used : Value
  scheduled_at : Value
  timezone : Value
  started_at : Value
  completed_at : Value
  created_at : Value
  updated_at : Value
deriving Repr

/-- `CampaignsResource._transform_campaign` (campaigns.py lines 175-195):
required fields via `data[...]` (KeyError when absent), optional fields via
`data.get(...)` with the source's defaults; `data[...]` on a non-dict is a
TypeError. Field accesses happen in the keyword-argument order of the
`Campaign(...)` call. -/
def transformCampaign : Value → Except SdkError Campaign
  | .obj m =>
    match lookupKey m "id" with
    | none => .error (.keyError "id")
    | some vid =>
    match lookupKey m "name" with
    | none => .error (.keyError "name")
    | some vname =>
    match lookupKey m "text" with
    | none => .error (.keyError "text")
    | some vtext =>
    match lookupKey m "status" with
    | none => .error (.keyError "status")
    | some vstatus =>
    match lookupKey m "created_at" with
    | none => .error (.keyError "created_at")
    | some vcreated =>
    match lookupKey m "updated_at" with
    | none => .error (.keyError "updated_at")
    | some vupdated =>
      .ok { id := vid, name := vname, text := vtext,
            template_id := (lookupKey m "template_id").getD .null,
            contact_list_ids := (lookupKey m "contact_list_ids").getD (.arr []),
            status := vstatus,
            recipient_count := (lookupKey m "recipient_count").getD (.int 0),
            sent_count := (lookupKey m "sent_count").getD (.int 0),
            delivered_count := (lookupKey m "delivered_count").getD (.int 0),
            failed_count := (lookupKey m "failed_count").getD (.int 0),
            estimated_credits := (lookupKey m "estimated_credits").getD (.int 0),
            credits_used := (lookupKey m "credits_used").getD (.int 0),
            scheduled_at := (lookupKey m "scheduled_at").getD .null,
            timezone := (lookupKey m "timezone").getD .null,
            started_at := (lookupKey m "started_at").getD .null,
            completed_at := (lookupKey m "completed_at").getD .null,
            created_at := vcreated, updated_at := vupdated }
  | _ => .error .typeError

/-- The `CampaignListResponse` typed response: items plus pagination fields. -/
structure CampaignListResponse where
  campaigns : List Campaign
  total : Value
  limit : Value
  offset : Value
deriving Repr

/-- Response reshaping of `CampaignsResource.list` (campaigns.py lines 85-90):
the comprehension over `data["campaigns"]` runs first, then `data["total"]`,
`data["limit"]`, `data["offset"]`. -/
def campaignsListReshape (data : Value) : Except SdkError CampaignListResponse :=
  match getItem data "campaigns" with
  | .error e => .error e
  | .ok items =>
  match asArr items with
  | .error e => .error e
  | .ok xs =>
  match mapE transformCampaign xs with
  | .error e => .error e
  | .ok cs =>
  match getItem data "total" with
  | .error e => .error e
  | .ok vtotal =>
  match getItem data "limit" with
  | .error e => .error e
  | .ok vlimit =>
  match getItem data "offset" with
  | .error e => .error e
  | .ok voffset => .ok { campaigns := cs, total := vtotal, limit := vlimit, offset := voffset }

/-- The `CampaignPreview` typed response. -/
structure CampaignPreview where
  id : Value
  recipient_count : Value
  estimated_segments : Value
  estimated_credits : Value
  current_balance : Value
  has_enough_credits : Value
  breakdown : Value
deriving Repr

/-- Response reshaping of `CampaignsResource.preview` (campaigns.py lines 130-138). -/
def campaignsPreviewReshape (data : Value) : Except SdkError CampaignPreview :=
  match getItem data "id" with
  | .error e => .error e
  | .ok vid =>
  match getItem data "recipient_count" with
  | .error e => .error e
  | .ok vrc =>
  match getItem data "estimated_segments" with
  | .error e => .error e
  | .ok vseg =>
  match getItem data "estimated_credits" with
  | .error e => .error e
  | .ok vcred =>
  match getItem data "current_balance" with
  | .error e => .error e
  | .ok vbal =>
  match getItem data "has_enough_credits" with
  | .error e => .error e
  | .ok venough =>
  match getItemOpt data "breakdown" with
  | .error e => .error e
  | .ok vbreak =>
    .ok { id := vid, recipient_count := vrc, estimated_segments := vseg,
          estimated_credits := vcred, current_balance := vbal,
          has_enough_credits := venough, breakdown := vbreak }

/-! ## Contacts resource (sync), `sendly/resources/contacts.py` -/

/-- Request of `ContactListsResource.list` (contacts.py line 26). -/
def contactListsListRequest : RequestDescriptor :=
  { method := "GET", path := "/contact-lists", jsonBody := none, params := none }

/-- Query params dict of `ContactListsResource.get` (contacts.py lines 36-40). -/
def contactListsGetParams (limit offset : Option Int) : Obj :=
  let ps : Obj := []
  let ps := if intOptTruthy limit then ps ++ [("limit", .int (limit.getD 0))] else ps
  let ps := if intOptTruthy offset then ps ++ [("offset", .int (offset.getD 0))] else ps
  ps

/-- Request of `ContactListsResource.get` (contacts.py lines 42-44). -/
def contactListsGetRequest (list_id : String) (limit offset : Option Int) :
    RequestDescriptor :=
  let ps := contactListsGetParams limit offset
  { method := "GET", path := "/contact-lists/" ++ list_id, jsonBody := none,
    params := if ps.isEmpty then none else some ps }

/-- Request body of `ContactListsResource.create` (contacts.py lines 49-51). -/
def contactListsCreateBody (name : String) (description : Option String) : Obj :=
  let body : Obj := [("name", .str name)]
  if strOptTruthy description then
    body ++ [("description", .str (description.getD ""))]
  else body

/-- Request of `ContactListsResource.create`. -/
def contactListsCreateRequest (name : String) (description : Option String) :
    RequestDescriptor :=
  { method := "POST", path := "/contact-lists",
    jsonBody := some (contactListsCreateBody name description), params := none }

/-- Request body of `ContactListsResource.update` (contacts.py lines 64-68). -/
def contactListsUpdateBody (name description : Option String) : Obj :=
  let body : Obj := []
  let body := match name with
    | some n => body ++ [("name", .str n)]
    | none => body
  let body := match description with
    | some d => body ++ [("description", .str d)]
    | none => body
  body

/-- Request of `ContactListsResource.update`. -/
def contactListsUpdateRequest (list_id : String) (name description : Option String) :
    RequestDescriptor :=
  { method := "PATCH", path := "/contact-lists/" ++ list_id,
    jsonBody := some (contactListsUpdateBody name description), params := none }

/-- Request of `ContactListsResource.delete`. -/
def contactListsDeleteRequest (list_id : String) : RequestDescriptor :=
  { method := "DELETE", path := "/contact-lists/" ++ list_id, jsonBody := none, params := none }

/-- Request of `ContactListsResource.add_contacts` (contacts.py lines 83-87). -/
def contactListsAddContactsRequest (list_id : String) (contact_ids : List String) :
    RequestDescriptor :=
  { method := "POST", path := "/contact-lists/" ++ list_id ++ "/contacts",
    jsonBody := some [("contact_ids", .arr (contact_ids.map Value.str))], params := none }

/-- Response reshaping of `ContactListsResource.add_contacts` (contacts.py line 88). -/
def contactListsAddContactsReshape (data : Value) : Except SdkError Obj :=
  match getItem data "added_count" with
  | .error e => .error e
  | .ok v => .ok [("added_count", v)]

/-- Request of `ContactListsResource.remove_contact`. -/
def contactListsRemoveContactRequest (list_id contact_id : String) : RequestDescriptor :=
  { method := "DELETE",
    path := "/contact-lists/" ++ list_id ++ "/contacts/" ++ contact_id,
    jsonBody := none, params := none }

/-- The `ContactList` typed response object; field set read off the
`ContactList(...)` call in `_transform_list`. -/
structure ContactList where
  id : Value
  name : Value
  description : Value
  contact_count : Value
  created_at : Value
  updated_at : Value
  contacts : Value
  contacts_total : Value
deriving Repr

/-- The member projection in `_transform_list` (contacts.py lines 97-105):
each element of `data["contacts"]` is reduced to its `id`, `phone_number`
(required) and `name`, `email` (optional) keys. -/
def projectListMember (c : Value) : Except SdkError Value :=
  match getItem c "id" with
  | .error e => .error e
  | .ok vid =>
  match getItem c "phone_number" with
  | .error e => .error e
  | .ok vphone =>
  match getItemOpt c "name" with
  | .error e => .error e
  | .ok vname =>
  match getItemOpt c "email" with
  | .error e => .error e
  | .ok vemail =>
    .ok (.obj [("id", vid), ("phone_number", vphone), ("name", vname), ("email", vemail)])

/-- The `ContactList(...)` constructor call at the end of
`ContactListsResource._transform_list` (contacts.py lines 107-116), taking the
already-computed `contacts` value. -/
def listOfParts (m : Obj) (vcontacts : Value) : Except SdkError ContactList :=
  match lookupKey m "id" with
  | none => .error (.keyError "id")
  | some vid =>
  match lookupKey m "name" with
  | none => .error (.keyError "name")
  | some vname =>
  match lookupKey m "created_at" with
  | none => .error (.keyError "created_at")
  | some vcreated =>
    .ok { id := vid, name := vname,
          description := (lookupKey m "description").getD .null,
          contact_count := (lookupKey m "contact_count").getD (.int 0),
          created_at := vcreated,
          updated_at := (lookupKey m "updated_at").getD .null,
          contacts := vcontacts,
          contacts_total := (lookupKey m "contacts_total").getD .null }

/-- `ContactListsResource._transform_list` (contacts.py lines 94-116):
`contacts` is projected only when the key is present AND truthy (a present
empty array yields `None`), then the `ContactList(...)` call runs. -/
def transformList : Value → Except SdkError ContactList
  | .obj m =>
    let contactsStep : Except SdkError Value :=
      match lookupKey m "contacts" with
      | some v =>
        if valueTruthy v then
          match asArr v with
          | .error e => .error e
          | .ok xs =>
            match mapE projectListMember xs with
            | .error e => .error e
            | .ok ys => .ok (.arr ys)
        else .ok .null
      | none => .ok .null
    match contactsStep with
    | .error e => .error e
    | .ok vcontacts => listOfParts m vcontacts
  | _ => .error .typeError

/-- The `ContactListsResponse` typed response of `ContactListsResource.list`:
only the collection, no pagination fields. -/
structure ContactListsResponse where
  lists : List ContactList
deriving Repr

/-- Response reshaping of `ContactListsResource.list` (contacts.py line 27). -/
def contactListsListReshape (data : Value) : Except SdkError ContactListsResponse :=
  match getItem data "lists" with
  | .error e => .error e
  | .ok v =>
  match asArr v with
  | .error e => .error e
  | .ok xs =>
  match mapE transformList xs with
  | .error e => .error e
  | .ok ls => .ok { lists := ls }

/-- Query params dict of `ContactsResource.list` (contacts.py lines 150-158). -/
def contactsListParams (limit offset : Option Int) (search list_id : Option String) : Obj :=
  let ps : Obj := []
  let ps := if intOptTruthy limit then ps ++ [("limit", .int (limit.getD 0))] else ps
  let ps := if intOptTruthy offset then ps ++ [("offset", .int (offset.getD 0))] else ps
  let ps := if strOptTruthy search then ps ++ [("search", .str (search.getD ""))] else ps
  let ps := if strOptTruthy list_id then ps ++ [("list_id", .str (list_id.getD ""))] else ps
  ps

/-- Request of `ContactsResource.list` (contacts.py line 160). -/
def contactsListRequest (limit offset : Option Int) (search list_id : Option String) :
    RequestDescriptor :=
  let ps := contactsListParams limit offset search list_id
  { method := "GET", path := "/contacts", jsonBody := none,
    params := if ps.isEmpty then none else some ps }

/-- Request of `ContactsResource.get`. -/
def contactsGetRequest (contact_id : String) : RequestDescriptor :=
  { method := "GET", path := "/contacts/" ++ contact_id, jsonBody := none, params := none }

/-- Request body of `ContactsResource.create` (contacts.py lines 188-194):
truthiness tests, so present-but-empty optional values are dropped. -/
def contactsCreateBody (phone_number : String) (name email : Option String)
    (metadata : Option Obj) : Obj :=
  let body : Obj := [("phone_number", .str phone_number)]
  let body := if strOptTruthy name then body ++ [("name", .str (name.getD ""))] else body
  let body := if strOptTruthy email then body ++ [("email", .str (email.getD ""))] else body
  let body := if objOptTruthy metadata then
    body ++ [("metadata", .obj (metadata.getD []))] else body
  body

/-- Request of `ContactsResource.create`. -/
def contactsCreateRequest (phone_number : String) (name email : Option String)
    (metadata : Option Obj) : RequestDescriptor :=
  { method := "POST", path := "/contacts",
    jsonBody := some (contactsCreateBody phone_number name email metadata), params := none }

/-- Request body of `ContactsResource.update` (contacts.py lines 208-214):
`is not None` tests, so present-but-empty optional values are kept. -/
def contactsUpdateBody (name email : Option String) (metadata : Option Obj) : Obj :=
  let body : Obj := []
  let body := match name with
    | some n => body ++ [("name", .str n)]
    | none => body
  let body := match email with
    | some e => body ++ [("email", .str e)]
    | none => body
  let body := match metadata with
    | some md => body ++ [("metadata", .obj md)]
    | none => body
  body

/-- Request of `ContactsResource.update`. -/
def contactsUpdateRequest (contact_id : String) (name email : Option String)
    (metadata : Option Obj) : RequestDescriptor :=
  { method := "PATCH", path := "/contacts/" ++ contact_id,
    jsonBody := some (contactsUpdateBody name email metadata), params := none }

/-- Request of `ContactsResource.delete`. -/
def contactsDeleteRequest (contact_id : String) : RequestDescriptor :=
  { method := "DELETE", path := "/contacts/" ++ contact_id, jsonBody := none, params := none }

/-- Request body of `ContactsResource.import_contacts` (contacts.py lines 237-243).
Each item arrives already serialized by `ImportContactItem.model_dump`, which
is opaque here; the optional `list_id` / `opted_in_at` use truthiness tests. -/
def contactsImportBody (contactsDumped : List Value)
    (list_id opted_in_at : Option String) : Obj :=
  let body : Obj := [("contacts", .arr contactsDumped)]
  let body := if strOptTruthy list_id then
    body ++ [("listId", .str (list_id.getD ""))] else body
  let body := if strOptTruthy opted_in_at then
    body ++ [("optedInAt", .str (opted_in_at.getD ""))] else body
  body

/-- Request of `ContactsResource.import_contacts`. -/
def contactsImportRequest (contactsDumped : List Value)
    (list_id opted_in_at : Option String) : RequestDescriptor :=
  { method := "POST", path := "/contacts/import",
    jsonBody := some (contactsImportBody contactsDumped list_id opted_in_at),
    params := none }

/-- The `ImportContactsResponse` typed response. -/
structure ImportContactsResponse where
  imported : Value
  skipped_duplicates : Value
  errors : Value
  total_errors : Value
deriving Repr

/-- Response reshaping of `ContactsResource.import_contacts`
(contacts.py lines 246-251). -/
def contactsImportReshape (data : Value) : Except SdkError ImportContactsResponse :=
  match getItem data "imported" with
  | .error e => .error e
  | .ok vi =>
  match getItem data "skippedDuplicates" with
  | .error e => .error e
  | .ok vs =>
  match getItemD data "errors" (.arr []) with
  | .error e => .error e
  | .ok ve =>
  match getItemD data "totalErrors" (.int 0) with
  | .error e => .error e
  | .ok vt => .ok { imported := vi, skipped_duplicates := vs, errors := ve, total_errors := vt }

/-- The `Contact` typed response object; field set read off the
`Contact(...)` call in `_transform_contact`. -/
structure Contact where
  id : Value
  phone_number : Value
  name : Value
  email : Value
  metadata : Value
  opted_out : Value
  created_at : Value
  updated_at : Value
  lists : Value
deriving Repr

/-- The list-membership projection in `_transform_contact`
(contacts.py line 256): each element of `data["lists"]` is reduced to its
`id` and `name` keys (both required, raw KeyError otherwise). -/
def projectContactListEntry (lst : Value) : Except SdkError Value :=
  match getItem lst "id" with
  | .error e => .error e
  | .ok vid =>
  match getItem lst "name" with
  | .error e => .error e
  | .ok vname => .ok (.obj [("id", vid), ("name", vname)])

/-- The `Contact(...)` constructor call at the end of
`ContactsResource._transform_contact` (contacts.py lines 258-268), taking the
already-computed `lists` value: required fields raise KeyError when absent. -/
def contactOfParts (m : Obj) (vlists : Value) : Except SdkError Contact :=
  match lookupKey m "id" with
  | none => .error (.keyError "id")
  | some vid =>
  match lookupKey m "phone_number" with
  | none => .error (.keyError "phone_number")
  | some vphone =>
  match lookupKey m "created_at" with
  | none => .error (.keyError "created_at")
  | some vcreated =>
    .ok { id := vid, phone_number := vphone,
          name := (lookupKey m "name").getD .null,
          email := (lookupKey m "email").getD .null,
          metadata := (lookupKey m "metadata").getD .null,
          opted_out := (lookupKey m "opted_out").getD (.bool false),
          created_at := vcreated,
          updated_at := (lookupKey m "updated_at").getD .null,
          lists := vlists }

/-- `ContactsResource._transform_contact` (contacts.py lines 253-268):
`lists` is projected only when the key is present AND truthy (a present
empty array yields `None`), then the `Contact(...)` call runs. -/
def transformContact : Value → Except SdkError Contact
  | .obj m =>
    let listsStep : Except SdkError Value :=
      match lookupKey m "lists" with
      | some v =>
        if valueTruthy v then
          match asArr v with
          | .error e => .error e
          | .ok xs =>
            match mapE projectContactListEntry xs with
            | .error e => .error e
            | .ok ys => .ok (.arr ys)
        else .ok .null
      | none => .ok .null
    match listsStep with
    | .error e => .error e
    | .ok vlists => contactOfParts m vlists
  | _ => .error .typeError

/-- The `ContactListResponse` typed response of `ContactsResource.list`:
items plus pagination fields. -/
structure ContactListResponse where
  contacts : List Contact
  total : Value
  limit : Value
  offset : Value
deriving Repr

/-- Response reshaping of `ContactsResource.list` (contacts.py lines 161-166). -/
def contactsListReshape (data : Value) : Except SdkError ContactListResponse :=
  match getItem data "contacts" with
  | .error e => .error e
  | .ok items =>
  match asArr items with
  | .error e => .error e
  | .ok xs =>
  match mapE transformContact xs with
  | .error e => .error e
  | .ok cs =>
  match getItem data "total" with
  | .error e => .error e
  | .ok vtotal =>
  match getItem data "limit" with
  | .error e => .error e
  | .ok vlimit =>
  match getItem data "offset" with
  | .error e => .error e
  | .ok voffset => .ok { contacts := cs, total := vtotal, limit := vlimit, offset := voffset }

/-! ## Verify resource (sync), `sendly/resources/verify.py` -/

/-- Request body of `VerifyResource.send` (verify.py lines 33-43):
all optionals use truthiness tests. -/
def verifySendBody (toNumber : String) (template_id profile_id app_name : Option String)
    (timeout_secs code_length : Option Int) : Obj :=
  let body : Obj := [("to", .str toNumber)]
  let body := if strOptTruthy template_id then
    body ++ [("template_id", .str (template_id.getD ""))] else body
  let body := if strOptTruthy profile_id then
    body ++ [("profile_id", .str (profile_id.getD ""))] else body
  let body := if strOptTruthy app_name then
    body ++ [("app_name", .str (app_name.getD ""))] else body
  let body := if intOptTruthy timeout_secs then
    body ++ [("timeout_secs", .int (timeout_secs.getD 0))] else body
  let body := if intOptTruthy code_length then
    body ++ [("code_length", .int (code_length.getD 0))] else body
  body

/-- Request of `VerifyResource.send`. -/
def verifySendRequest (toNumber : String) (template_id profile_id app_name : Option String)
    (timeout_secs code_length : Option Int) : RequestDescriptor :=
  { method := "POST", path := "/verify",
    jsonBody := some (verifySendBody toNumber template_id profile_id app_name
      timeout_secs code_length),
    params := none }

/-- The `SendVerificationResponse` typed response. -/
structure SendVerificationResponse where
  id : Value
  status : Value
  phone : Value
  expires_at : Value
  sandbox : Value
  sandbox_code : Value
  message : Value
deriving Repr

/-- Response reshaping of `VerifyResource.send` (verify.py lines 46-54). -/
def verifySendReshape (data : Value) : Except SdkError SendVerificationResponse :=
  match getItem data "id" with
  | .error e => .error e
  | .ok vid =>
  match getItem data "status" with
  | .error e => .error e
  | .ok vstatus =>
  match getItem data "phone" with
  | .error e => .error e
  | .ok vphone =>
  match getItem data "expires_at" with
  | .error e => .error e
  | .ok vexp =>
  match getItem data "sandbox" with
  | .error e => .error e
  | .ok vsandbox =>
  match getItemOpt data "sandbox_code" with
  | .error e => .error e
  | .ok vcode =>
  match getItemOpt data "message" with
  | .error e => .error e
  | .ok vmsg =>
    .ok { id := vid, status := vstatus, phone := vphone, expires_at := vexp,
          sandbox := vsandbox, sandbox_code := vcode, message := vmsg }

/-- Request of `VerifyResource.check` (verify.py lines 58-60). -/
def verifyCheckRequest (verification_id code : String) : RequestDescriptor :=
  { method := "POST", path := "/verify/" ++ verification_id ++ "/check",
    jsonBody := some [("code", .str code)], params := none }

/-- The `CheckVerificationResponse` typed response. -/
structure CheckVerificationResponse where
  id : Value
  status : Value
  phone : Value
  verified_at : Value
  remaining_attempts : Value
deriving Repr

/-- Response reshaping of `VerifyResource.check` (verify.py lines 61-67):
`verified_at` and `remaining_attempts` use `data.get(...)`, defaulting to
`None` when absent. -/
def verifyCheckReshape (data : Value) : Except SdkError CheckVerificationResponse :=
  match getItem data "id" with
  | .error e => .error e
  | .ok vid =>
  match getItem data "status" with
  | .error e => .error e
  | .ok vstatus =>
  match getItem data "phone" with
  | .error e => .error e
  | .ok vphone =>
  match getItemOpt data "verified_at" with
  | .error e => .error e
  | .ok vverified =>
  match getItemOpt data "remaining_attempts" with
  | .error e => .error e
  | .ok vrem =>
    .ok { id := vid, status := vstatus, phone := vphone,
          verified_at := vverified, remaining_attempts := vrem }

/-- Request of `VerifyResource.get`. -/
def verifyGetRequest (verification_id : String) : RequestDescriptor :=
  { method := "GET", path := "/verify/" ++ verification_id, jsonBody := none, params := none }

/-- The `Verification` typed response object; field set read off the
`Verification(...)` calls in `VerifyResource.get` / `VerifyResource.list`. -/
structure Verification where
  id : Value
  status : Value
  phone : Value
  delivery_status : Value
  attempts : Value
  max_attempts : Value
  expires_at : Value
  verified_at : Value
  created_at : Value
  sandbox : Value
  app_name : Value
  template_id : Value
  profile_id : Value
deriving Repr

/-- The `Verification(...)` construction shared by `VerifyResource.get`
(verify.py lines 72-86) and each element of `VerifyResource.list`. -/
def verificationOfValue (data : Value) : Except SdkError Verification :=
  match getItem data "id" with
  | .error e => .error e
  | .ok vid =>
  match getItem data "status" with
  | .error e => .error e
  | .ok vstatus =>
  match getItem data "phone" with
  | .error e => .error e
  | .ok vphone =>
  match getItem data "delivery_status" with
  | .error e => .error e
  | .ok vdel =>
  match getItem data "attempts" with
  | .error e => .error e
  | .ok vatt =>
  match getItem data "max_attempts" with
  | .error e => .error e
  | .ok vmax =>
  match getItem data "expires_at" with
  | .error e => .error e
  | .ok vexp =>
  match getItemOpt data "verified_at" with
  | .error e => .error e
  | .ok vverified =>
  match getItem data "created_at" with
  | .error e => .error e
  | .ok vcreated =>
  match getItem data "sandbox" with
  | .error e => .error e
  | .ok vsandbox =>
  match getItemOpt data "app_name" with
  | .error e => .error e
  | .ok vapp =>
  match getItemOpt data "template_id" with
  | .error e => .error e
  | .ok vtmpl =>
  match getItemOpt data "profile_id" with
  | .error e => .error e
  | .ok vprof =>
    .ok { id := vid, status := vstatus, phone := vphone, delivery_status := vdel,
          attempts := vatt, max_attempts := vmax, expires_at := vexp,
          verified_at := vverified, created_at := vcreated, sandbox := vsandbox,
          app_name := vapp, template_id := vtmpl, profile_id := vprof }

/-- Query params dict of `VerifyResource.list` (verify.py lines 95-99). -/
def verifyListParams (limit : Option Int) (status : Option String) : Obj :=
  let ps : Obj := []
  let ps := if intOptTruthy limit then ps ++ [("limit", .int (limit.getD 0))] else ps
  let ps := if strOptTruthy status then ps ++ [("status", .str (status.getD ""))] else ps
  ps

/-- Request of `VerifyResource.list` (verify.py line 101): unlike the other
list methods, `params=params` is passed unconditionally, even when empty. -/
def verifyListRequest (limit : Option Int) (status : Option String) : RequestDescriptor :=
  { method := "GET", path := "/verify", jsonBody := none,
    params := some (verifyListParams limit status) }

/-- The `VerificationListResponse` typed response of `VerifyResource.list`:
items plus the source's `pagination` mapping passed through as one value. -/
structure VerificationListResponse where
  verifications : List Verification
  pagination : Value
deriving Repr

/-- Response reshaping of `VerifyResource.list` (verify.py lines 102-122). -/
def verifyListReshape (data : Value) : Except SdkError VerificationListResponse :=
  match getItem data "verifications" with
  | .error e => .error e
  | .ok items =>
  match asArr items with
  | .error e => .error e
  | .ok xs =>
  match mapE verificationOfValue xs with
  | .error e => .error e
  | .ok vs =>
  match getItem data "pagination" with
  | .error e => .error e
  | .ok vpag => .ok { verifications := vs, pagination := vpag }

/-! ## Media resource (sync), `sendly/resources/media.py` -/

/-- One entry of the `files=` mapping handed to `httpx`: the multipart field
name together with the `(filename, stream, content_type)` tuple (the stream
itself is opaque to request construction). -/
structure FilePart where
  fieldName : String
  filename : String
  contentType : String
deriving Repr, DecidableEq

/-- The multipart request issued by `MediaResource.upload`
(media.py lines 56-64): a direct `client.post` with a `files` mapping and
explicit auth/accept/user-agent headers. -/
structure MultipartRequest where
  path : String
  files : List FilePart
deriving Repr, DecidableEq

/-- Request construction of `MediaResource.upload` (media.py lines 55-64):
`files={"file": (filename, file, content_type)}` — a single-entry dict. -/
def mediaUploadRequest (filename content_type : String) : MultipartRequest :=
  { path := "/media",
    files := [{ fieldName := "file", filename := filename, contentType := content_type }] }

/-- The `MediaFile` typed response object.

Modelled from the spec: `MediaFile` is declared in `sendly/types.py`, which is
not under `src/`. Per the spec (§3), typed response objects have fields mapping
1:1 to API response fields with a fixed set of required fields; the media
examples read `media.url` and `media.id` style fields. We model required `id`
and `url` and keep the remaining payload. -/
structure MediaFile where
  id : Value
  url : Value
deriving Repr

/-- Modelled from the spec: the pydantic validation performed by
`MediaFile(**data)` (`sendly/types.py` is not under `src/`). A non-mapping or
a mapping missing a required field fails with a pydantic-style message naming
the problem; extra fields are tolerated (pydantic default). -/
def mediaFileOfValue : Value → Except String MediaFile
  | .obj m =>
    match lookupKey m "id" with
    | none => .error "1 validation error for MediaFile: id Field required"
    | some vid =>
    match lookupKey m "url" with
    | none => .error "1 validation error for MediaFile: url Field required"
    | some vurl => .ok { id := vid, url := vurl }
  | _ => .error "validation error for MediaFile: input is not a mapping"

/-- Response reshaping of `MediaResource.upload` (media.py lines 69-76):
a pydantic validation failure is wrapped into a `SendlyError` whose message
embeds the original one, with code `invalid_response` and status 200. -/
def mediaUploadReshape (data : Value) : Except SdkError MediaFile :=
  match mediaFileOfValue data with
  | .ok mf => .ok mf
  | .error e =>
    .error (.sendlyError ("Invalid API response format: " ++ e) "invalid_response" 200)

/-! ## Async campaigns resource, `AsyncCampaignsResource` (campaigns.py lines 198-340).
Transcribed independently from the async class bodies; the typed response
classes in `sendly/types.py` are shared between the sync and async clients. -/

/-- Request body of `AsyncCampaignsResource.create` (campaigns.py lines 212-218). -/
def asyncCampaignsCreateBody (name text : String) (contact_list_ids : List String)
    (template_id : Option String) : Obj :=
  let body : Obj := [("name", .str name), ("text", .str text),
    ("contactListIds", .arr (contact_list_ids.map Value.str))]
  if strOptTruthy template_id then
    body ++ [("templateId", .str (template_id.getD ""))]
  else body

/-- Request of `AsyncCampaignsResource.create` (campaigns.py line 220). -/
def asyncCampaignsCreateRequest (name text : String) (contact_list_ids : List String)
    (template_id : Option String) : RequestDescriptor :=
  { method := "POST", path := "/campaigns",
    jsonBody := some (asyncCampaignsCreateBody name text contact_list_ids template_id),
    params := none }

/-- Query params dict of `AsyncCampaignsResource.list` (campaigns.py lines 230-236). -/
def asyncCampaignsListParams (limit offset : Option Int) (status : Option String) : Obj :=
  let ps : Obj := []
  let ps := if intOptTruthy limit then ps ++ [("limit", .int (limit.getD 0))] else ps
  let ps := if intOptTruthy offset then ps ++ [("offset", .int (offset.getD 0))] else ps
  let ps := if strOptTruthy status then ps ++ [("status", .str (status.getD ""))] else ps
  ps

/-- Request of `AsyncCampaignsResource.list` (campaigns.py line 238). -/
def asyncCampaignsListRequest (limit offset : Option Int) (status : Option String) :
    RequestDescriptor :=
  let ps := asyncCampaignsListParams limit offset status
  { method := "GET", path := "/campaigns", jsonBody := none,
    params := if ps.isEmpty then none else some ps }

/-- Request of `AsyncCampaignsResource.get`. -/
def asyncCampaignsGetRequest (campaign_id : String) : RequestDescriptor :=
  { method := "GET", path := "/campaigns/" ++ campaign_id, jsonBody := none, params := none }

/-- Request body of `AsyncCampaignsResource.update` (campaigns.py lines 261-269). -/
def asyncCampaignsUpdateBody (name text template_id : Option String)
    (contact_list_ids : Option (List String)) : Obj :=
  let body : Obj := []
  let body := match name with
    | some n => body ++ [("name", .str n)]
    | none => body
  let body := match text with
    | some t => body ++ [("text", .str t)]
    | none => body
  let body := match template_id with
    | some t => body ++ [("templateId", .str t)]
    | none => body
  let body := match contact_list_ids with
    | some ids => body ++ [("contactListIds", .arr (ids.map Value.str))]
    | none => body
  body

/-- Request of `AsyncCampaignsResource.update`. -/
def asyncCampaignsUpdateRequest (campaign_id : String) (name text template_id : Option String)
    (contact_list_ids : Option (List String)) : RequestDescriptor :=
  { method := "PATCH", path := "/campaigns/" ++ campaign_id,
    jsonBody := some (asyncCampaignsUpdateBody name text template_id contact_list_ids),
    params := none }

/-- Request of `AsyncCampaignsResource.delete`. -/
def asyncCampaignsDeleteRequest (campaign_id : String) : RequestDescriptor :=
  { method := "DELETE", path := "/campaigns/" ++ campaign_id, jsonBody := none, params := none }

/-- Request of `AsyncCampaignsResource.preview`. -/
def asyncCampaignsPreviewRequest (campaign_id : String) : RequestDescriptor :=
  { method := "GET", path := "/campaigns/" ++ campaign_id ++ "/preview",
    jsonBody := none, params := none }

/-- Response reshaping of `AsyncCampaignsResource.preview`
(campaigns.py lines 281-289). -/
def asyncCampaignsPreviewReshape (data : Value) : Except SdkError CampaignPreview :=
  match getItem data "id" with
  | .error e => .error e
  | .ok vid =>
  match getItem data "recipient_count" with
  | .error e => .error e
  | .ok vrc =>
  match getItem data "estimated_segments" with
  | .error e => .error e
  | .ok vseg =>
  match getItem data "estimated_credits" with
  | .error e => .error e
  | .ok vcred =>
  match getItem data "current_balance" with
  | .error e => .error e
  | .ok vbal =>
  match getItem data "has_enough_credits" with
  | .error e => .error e
  | .ok venough =>
  match getItemOpt data "breakdown" with
  | .error e => .error e
  | .ok vbreak =>
    .ok { id := vid, recipient_count := vrc, estimated_segments := vseg,
          estimated_credits := vcred, current_balance := vbal,
          has_enough_credits := venough, breakdown := vbreak }

/-- Request of `AsyncCampaignsResource.send`. -/
def asyncCampaignsSendRequest (campaign_id : String) : RequestDescriptor :=
  { method := "POST", path := "/campaigns/" ++ campaign_id ++ "/send",
    jsonBody := none, params := none }

/-- Request body of `AsyncCampaignsResource.schedule` (campaigns.py lines 303-305). -/
def asyncCampaignsScheduleBody (scheduled_at : String) (timezone : Option String) : Obj :=
  let body : Obj := [("scheduledAt", .str scheduled_at)]
  if strOptTruthy timezone then body ++ [("timezone", .str (timezone.getD ""))] else body

/-- Request of `AsyncCampaignsResource.schedule`. -/
def asyncCampaignsScheduleRequest (campaign_id scheduled_at : String)
    (timezone : Option String) : RequestDescriptor :=
  { method := "POST", path := "/campaigns/" ++ campaign_id ++ "/schedule",
    jsonBody := some (asyncCampaignsScheduleBody scheduled_at timezone), params := none }

/-- Request of `AsyncCampaignsResource.cancel`. -/
def asyncCampaignsCancelRequest (campaign_id : String) : RequestDescriptor :=
  { method := "POST", path := "/campaigns/" ++ campaign_id ++ "/cancel",
    jsonBody := none, params := none }

/-- Request of `AsyncCampaignsResource.clone`. -/
def asyncCampaignsCloneRequest (campaign_id : String) : RequestDescriptor :=
  { method := "POST", path := "/campaigns/" ++ campaign_id ++ "/clone",
    jsonBody := none, params := none }

/-- `AsyncCampaignsResource._transform_campaign` (campaigns.py lines 320-340). -/
def asyncTransformCampaign : Value → Except SdkError Campaign
  | .obj m =>
    match lookupKey m "id" with
    | none => .error (.keyError "id")
    | some vid =>
    match lookupKey m "name" with
    | none => .error (.keyError "name")
    | some vname =>
    match lookupKey m "text" with
    | none => .error (.keyError "text")
    | some vtext =>
    match lookupKey m "status" with
    | none => .error (.keyError "status")
    | some vstatus =>
    match lookupKey m "created_at" with
    | none => .error (.keyError "created_at")
    | some vcreated =>
    match lookupKey m "updated_at" with
    | none => .error (.keyError "updated_at")
    | some vupdated =>
      .ok { id := vid, name := vname, text := vtext,
            template_id := (lookupKey m "template_id").getD .null,
            contact_list_ids := (lookupKey m "contact_list_ids").getD (.arr []),
            status := vstatus,
            recipient_count := (lookupKey m "recipient_count").getD (.int 0),
            sent_count := (lookupKey m "sent_count").getD (.int 0),
            delivered_count := (lookupKey m "delivered_count").getD (.int 0),
            failed_count := (lookupKey m "failed_count").getD (.int 0),
            estimated_credits := (lookupKey m "estimated_credits").getD (.int 0),
            credits_used := (lookupKey m "credits_used").getD (.int 0),
            scheduled_at := (lookupKey m "scheduled_at").getD .null,
            timezone := (lookupKey m "timezone").getD .null,
            started_at := (lookupKey m "started_at").getD .null,
            completed_at := (lookupKey m "completed_at").getD .null,
            created_at := vcreated, updated_at := vupdated }
  | _ => .error .typeError

/-- Response reshaping of `AsyncCampaignsResource.list` (campaigns.py lines 239-244). -/
def asyncCampaignsListReshape (data : Value) : Except SdkError CampaignListResponse :=
  match getItem data "campaigns" with
  | .error e => .error e
  | .ok items =>
  match asArr items with
  | .error e => .error e
  | .ok xs =>
  match mapE asyncTransformCampaign xs with
  | .error e => .error e
  | .ok cs =>
  match getItem data "total" with
  | .error e => .error e
  | .ok vtotal =>
  match getItem data "limit" with
  | .error e => .error e
  | .ok vlimit =>
  match getItem data "offset" with
  | .error e => .error e
  | .ok voffset => .ok { campaigns := cs, total := vtotal, limit := vlimit, offset := voffset }

/-! ## Async contacts resource, `AsyncContactListsResource` /
`AsyncContactsResource` (contacts.py lines 271-494). -/

/-- Request of `AsyncContactListsResource.list` (contacts.py line 279). -/
def asyncContactListsListRequest : RequestDescriptor :=
  { method := "GET", path := "/contact-lists", jsonBody := none, params := none }

/-- Query params dict of `AsyncContactListsResource.get` (contacts.py lines 289-293). -/
def asyncContactListsGetParams (limit offset : Option Int) : Obj :=
  let ps : Obj := []
  let ps := if intOptTruthy limit then ps ++ [("limit", .int (limit.getD 0))] else ps
  let ps := if intOptTruthy offset then ps ++ [("offset", .int (offset.getD 0))] else ps
  ps

/-- Request of `AsyncContactListsResource.get` (contacts.py lines 295-297). -/
def asyncContactListsGetRequest (list_id : String) (limit offset : Option Int) :
    RequestDescriptor :=
  let ps := asyncContactListsGetParams limit offset
  { method := "GET", path := "/contact-lists/" ++ list_id, jsonBody := none,
    params := if ps.isEmpty then none else some ps }

/-- Request body of `AsyncContactListsResource.create` (contacts.py lines 302-304). -/
def asyncContactListsCreateBody (name : String) (description : Option String) : Obj :=
  let body : Obj := [("name", .str name)]
  if strOptTruthy description then
    body ++ [("description", .str (description.getD ""))]
  else body

/-- Request of `AsyncContactListsResource.create`. -/
def asyncContactListsCreateRequest (name : String) (description : Option String) :
    RequestDescriptor :=
  { method := "POST", path := "/contact-lists",
    jsonBody := some (asyncContactListsCreateBody name description), params := none }

/-- Request body of `AsyncContactListsResource.update` (contacts.py lines 317-321). -/
def asyncContactListsUpdateBody (name description : Option String) : Obj :=
  let body : Obj := []
  let body := match name with
    | some n => body ++ [("name", .str n)]
    | none => body
  let body := match description with
    | some d => body ++ [("description", .str d)]
    | none => body
  body

/-- Request of `AsyncContactListsResource.update`. -/
def asyncContactListsUpdateRequest (list_id : String) (name description : Option String) :
    RequestDescriptor :=
  { method := "PATCH", path := "/contact-lists/" ++ list_id,
    jsonBody := some (asyncContactListsUpdateBody name description), params := none }

/-- Request of `AsyncContactListsResource.delete`. -/
def asyncContactListsDeleteRequest (list_id : String) : RequestDescriptor :=
  { method := "DELETE", path := "/contact-lists/" ++ list_id, jsonBody := none, params := none }

/-- Request of `AsyncContactListsResource.add_contacts` (contacts.py lines 332-336). -/
def asyncContactListsAddContactsRequest (list_id : String) (contact_ids : List String) :
    RequestDescriptor :=
  { method := "POST", path := "/contact-lists/" ++ list_id ++ "/contacts",
    jsonBody := some [("contact_ids", .arr (contact_ids.map Value.str))], params := none }

/-- Response reshaping of `AsyncContactListsResource.add_contacts`
(contacts.py line 337). -/
def asyncContactListsAddContactsReshape (data : Value) : Except SdkError Obj :=
  match getItem data "added_count" with
  | .error e => .error e
  | .ok v => .ok [("added_count", v)]

/-- Request of `AsyncContactListsResource.remove_contact`. -/
def asyncContactListsRemoveContactRequest (list_id contact_id : String) : RequestDescriptor :=
  { method := "DELETE",
    path := "/contact-lists/" ++ list_id ++ "/contacts/" ++ contact_id,
    jsonBody := none, params := none }

/-- The member projection in `AsyncContactListsResource._transform_list`
(contacts.py lines 346-354). -/
def asyncProjectListMember (c : Value) : Except SdkError Value :=
  match getItem c "id" with
  | .error e => .error e
  | .ok vid =>
  match getItem c "phone_number" with
  | .error e => .error e
  | .ok vphone =>
  match getItemOpt c "name" with
  | .error e => .error e
  | .ok vname =>
  match getItemOpt c "email" with
  | .error e => .error e
  | .ok vemail =>
    .ok (.obj [("id", vid), ("phone_number", vphone), ("name", vname), ("email", vemail)])

/-- The `ContactList(...)` constructor call at the end of
`AsyncContactListsResource._transform_list` (contacts.py lines 356-365). -/
def asyncListOfParts (m : Obj) (vcontacts : Value) : Except SdkError ContactList :=
  match lookupKey m "id" with
  | none => .error (.keyError "id")
  | some vid =>
  match lookupKey m "name" with
  | none => .error (.keyError "name")
  | some vname =>
  match lookupKey m "created_at" with
  | none => .error (.keyError "created_at")
  | some vcreated =>
    .ok { id := vid, name := vname,
          description := (lookupKey m "description").getD .null,
          contact_count := (lookupKey m "contact_count").getD (.int 0),
          created_at := vcreated,
          updated_at := (lookupKey m "updated_at").getD .null,
          contacts := vcontacts,
          contacts_total := (lookupKey m "contacts_total").getD .null }

/-- `AsyncContactListsResource._transform_list` (contacts.py lines 343-365). -/
def asyncTransformList : Value → Except SdkError ContactList
  | .obj m =>
    let contactsStep : Except SdkError Value :=
      match lookupKey m "contacts" with
      | some v =>
        if valueTruthy v then
          match asArr v with
          | .error e => .error e
          | .ok xs =>
            match mapE asyncProjectListMember xs with
            | .error e => .error e
            | .ok ys => .ok (.arr ys)
        else .ok .null
      | none => .ok .null
    match contactsStep with
    | .error e => .error e
    | .ok vcontacts => asyncListOfParts m vcontacts
  | _ => .error .typeError

/-- Response reshaping of `AsyncContactListsResource.list` (contacts.py line 280). -/
def asyncContactListsListReshape (data : Value) : Except SdkError ContactListsResponse :=
  match getItem data "lists" with
  | .error e => .error e
  | .ok v =>
  match asArr v with
  | .error e => .error e
  | .ok xs =>
  match mapE asyncTransformList xs with
  | .error e => .error e
  | .ok ls => .ok { lists := ls }

/-- Query params dict of `AsyncContactsResource.list` (contacts.py lines 383-391). -/
def asyncContactsListParams (limit offset : Option Int) (search list_id : Option String) :
    Obj :=
  let ps : Obj := []
  let ps := if intOptTruthy limit then ps ++ [("limit", .int (limit.getD 0))] else ps
  let ps := if intOptTruthy offset then ps ++ [("offset", .int (offset.getD 0))] else ps
  let ps := if strOptTruthy search then ps ++ [("search", .str (search.getD ""))] else ps
  let ps := if strOptTruthy list_id then ps ++ [("list_id", .str (list_id.getD ""))] else ps
  ps

/-- Request of `AsyncContactsResource.list` (contacts.py line 393). -/
def asyncContactsListRequest (limit offset : Option Int) (search list_id : Option String) :
    RequestDescriptor :=
  let ps := asyncContactsListParams limit offset search list_id
  { method := "GET", path := "/contacts", jsonBody := none,
    params := if ps.isEmpty then none else some ps }

/-- Request of `AsyncContactsResource.get`. -/
def asyncContactsGetRequest (contact_id : String) : RequestDescriptor :=
  { method := "GET", path := "/contacts/" ++ contact_id, jsonBody := none, params := none }

/-- Request body of `AsyncContactsResource.create` (contacts.py lines 414-420). -/
def asyncContactsCreateBody (phone_number : String) (name email : Option String)
    (metadata : Option Obj) : Obj :=
  let body : Obj := [("phone_number", .str phone_number)]
  let body := if strOptTruthy name then body ++ [("name", .str (name.getD ""))] else body
  let body := if strOptTruthy email then body ++ [("email", .str (email.getD ""))] else body
  let body := if objOptTruthy metadata then
    body ++ [("metadata", .obj (metadata.getD []))] else body
  body

/-- Request of `AsyncContactsResource.create`. -/
def asyncContactsCreateRequest (phone_number : String) (name email : Option String)
    (metadata : Option Obj) : RequestDescriptor :=
  { method := "POST", path := "/contacts",
    jsonBody := some (asyncContactsCreateBody phone_number name email metadata),
    params := none }

/-- Request body of `AsyncContactsResource.update` (contacts.py lines 434-440). -/
def asyncContactsUpdateBody (name email : Option String) (metadata : Option Obj) : Obj :=
  let body : Obj := []
  let body := match name with
    | some n => body ++ [("name", .str n)]
    | none => body
  let body := match email with
    | some e => body ++ [("email", .str e)]
    | none => body
  let body := match metadata with
    | some md => body ++ [("metadata", .obj md)]
    | none => body
  body

/-- Request of `AsyncContactsResource.update`. -/
def asyncContactsUpdateRequest (contact_id : String) (name email : Option String)
    (metadata : Option Obj) : RequestDescriptor :=
  { method := "PATCH", path := "/contacts/" ++ contact_id,
    jsonBody := some (asyncContactsUpdateBody name email metadata), params := none }

/-- Request of `AsyncContactsResource.delete`. -/
def asyncContactsDeleteRequest (contact_id : String) : RequestDescriptor :=
  { method := "DELETE", path := "/contacts/" ++ contact_id, jsonBody := none, params := none }

/-- Request body of `AsyncContactsResource.import_contacts`
(contacts.py lines 463-469). -/
def asyncContactsImportBody (contactsDumped : List Value)
    (list_id opted_in_at : Option String) : Obj :=
  let body : Obj := [("contacts", .arr contactsDumped)]
  let body := if strOptTruthy list_id then
    body ++ [("listId", .str (list_id.getD ""))] else body
  let body := if strOptTruthy opted_in_at then
    body ++ [("optedInAt", .str (opted_in_at.getD ""))] else body
  body

/-- Request of `AsyncContactsResource.import_contacts`. -/
def asyncContactsImportRequest (contactsDumped : List Value)
    (list_id opted_in_at : Option String) : RequestDescriptor :=
  { method := "POST", path := "/contacts/import",
    jsonBody := some (asyncContactsImportBody contactsDumped list_id opted_in_at),
    params := none }

/-- Response reshaping of `AsyncContactsResource.import_contacts`
(contacts.py lines 472-477). -/
def asyncContactsImportReshape (data : Value) : Except SdkError ImportContactsResponse :=
  match getItem data "imported" with
  | .error e => .error e
  | .ok vi =>
  match getItem data "skippedDuplicates" with
  | .error e => .error e
  | .ok vs =>
  match getItemD data "errors" (.arr []) with
  | .error e => .error e
  | .ok ve =>
  match getItemD data "totalErrors" (.int 0) with
  | .error e => .error e
  | .ok vt => .ok { imported := vi, skipped_duplicates := vs, errors := ve, total_errors := vt }

/-- The list-membership projection in `AsyncContactsResource._transform_contact`
(contacts.py line 482). -/
def asyncProjectContactListEntry (lst : Value) : Except SdkError Value :=
  match getItem lst "id" with
  | .error e => .error e
  | .ok vid =>
  match getItem lst "name" with
  | .error e => .error e
  | .ok vname => .ok (.obj [("id", vid), ("name", vname)])

/-- The `Contact(...)` constructor call at the end of
`AsyncContactsResource._transform_contact` (contacts.py lines 484-494). -/
def asyncContactOfParts (m : Obj) (vlists : Value) : Except SdkError Contact :=
  match lookupKey m "id" with
  | none => .error (.keyError "id")
  | some vid =>
  match lookupKey m "phone_number" with
  | none => .error (.keyError "phone_number")
  | some vphone =>
  match lookupKey m "created_at" with
  | none => .error (.keyError "created_at")
  | some vcreated =>
    .ok { id := vid, phone_number := vphone,
          name := (lookupKey m "name").getD .null,
          email := (lookupKey m "email").getD .null,
          metadata := (lookupKey m "metadata").getD .null,
          opted_out := (lookupKey m "opted_out").getD (.bool false),
          created_at := vcreated,
          updated_at := (lookupKey m "updated_at").getD .null,
          lists := vlists }

/-- `AsyncContactsResource._transform_contact` (contacts.py lines 479-494). -/
def asyncTransformContact : Value → Except SdkError Contact
  | .obj m =>
    let listsStep : Except SdkError Value :=
      match lookupKey m "lists" with
      | some v =>
        if valueTruthy v then
          match asArr v with
          | .error e => .error e
          | .ok xs =>
            match mapE asyncProjectContactListEntry xs with
            | .error e => .error e
            | .ok ys => .ok (.arr ys)
        else .ok .null
      | none => .ok .null
    match listsStep with
    | .error e => .error e
    | .ok vlists => asyncContactOfParts m vlists
  | _ => .error .typeError

/-- Response reshaping of `AsyncContactsResource.list` (contacts.py lines 394-399). -/
def asyncContactsListReshape (data : Value) : Except SdkError ContactListResponse :=
  match getItem data "contacts" with
  | .error e => .error e
  | .ok items =>
  match asArr items with
  | .error e => .error e
  | .ok xs =>
  match mapE asyncTransformContact xs with
  | .error e => .error e
  | .ok cs =>
  match getItem data "total" with
  | .error e => .error e
  | .ok vtotal =>
  match getItem data "limit" with
  | .error e => .error e
  | .ok vlimit =>
  match getItem data "offset" with
  | .error e => .error e
  | .ok voffset => .ok { contacts := cs, total := vtotal, limit := vlimit, offset := voffset }

/-! ## Async verify resource, `AsyncVerifyResource` (verify.py lines 125-231),
and async media resource, `AsyncMediaResource` (media.py lines 79-134). -/

/-- Request body of `AsyncVerifyResource.send` (verify.py lines 142-152). -/
def asyncVerifySendBody (toNumber : String)
    (template_id profile_id app_name : Option String)
    (timeout_secs code_length : Option Int) : Obj :=
  let body : Obj := [("to", .str toNumber)]
  let body := if strOptTruthy template_id then
    body ++ [("template_id", .str (template_id.getD ""))] else body
  let body := if strOptTruthy profile_id then
    body ++ [("profile_id", .str (profile_id.getD ""))] else body
  let body := if strOptTruthy app_name then
    body ++ [("app_name", .str (app_name.getD ""))] else body
  let body := if intOptTruthy timeout_secs then
    body ++ [("timeout_secs", .int (timeout_secs.getD 0))] else body
  let body := if intOptTruthy code_length then
    body ++ [("code_length", .int (code_length.getD 0))] else body
  body

/-- Request of `AsyncVerifyResource.send`. -/
def asyncVerifySendRequest (toNumber : String)
    (template_id profile_id app_name : Option String)
    (timeout_secs code_length : Option Int) : RequestDescriptor :=
  { method := "POST", path := "/verify",
    jsonBody := some (asyncVerifySendBody toNumber template_id profile_id app_name
      timeout_secs code_length),
    params := none }

/-- Response reshaping of `AsyncVerifyResource.send` (verify.py lines 155-163). -/
def asyncVerifySendReshape (data : Value) : Except SdkError SendVerificationResponse :=
  match getItem data "id" with
  | .error e => .error e
  | .ok vid =>
  match getItem data "status" with
  | .error e => .error e
  | .ok vstatus =>
  match getItem data "phone" with
  | .error e => .error e
  | .ok vphone =>
  match getItem data "expires_at" with
  | .error e => .error e
  | .ok vexp =>
  match getItem data "sandbox" with
  | .error e => .error e
  | .ok vsandbox =>
  match getItemOpt data "sandbox_code" with
  | .error e => .error e
  | .ok vcode =>
  match getItemOpt data "message" with
  | .error e => .error e
  | .ok vmsg =>
    .ok { id := vid, status := vstatus, phone := vphone, expires_at := vexp,
          sandbox := vsandbox, sandbox_code := vcode, message := vmsg }

/-- Request of `AsyncVerifyResource.check` (verify.py lines 167-169). -/
def asyncVerifyCheckRequest (verification_id code : String) : RequestDescriptor :=
  { method := "POST", path := "/verify/" ++ verification_id ++ "/check",
    jsonBody := some [("code", .str code)], params := none }

/-- Response reshaping of `AsyncVerifyResource.check` (verify.py lines 170-176). -/
def asyncVerifyCheckReshape (data : Value) : Except SdkError CheckVerificationResponse :=
  match getItem data "id" with
  | .error e => .error e
  | .ok vid =>
  match getItem data "status" with
  | .error e => .error e
  | .ok vstatus =>
  match getItem data "phone" with
  | .error e => .error e
  | .ok vphone =>
  match getItemOpt data "verified_at" with
  | .error e => .error e
  | .ok vverified =>
  match getItemOpt data "remaining_attempts" with
  | .error e => .error e
  | .ok vrem =>
    .ok { id := vid, status := vstatus, phone := vphone,
          verified_at := vverified, remaining_attempts := vrem }

/-- Request of `AsyncVerifyResource.get`. -/
def asyncVerifyGetRequest (verification_id : String) : RequestDescriptor :=
  { method := "GET", path := "/verify/" ++ verification_id, jsonBody := none, params := none }

/-- The `Verification(...)` construction in `AsyncVerifyResource.get`
(verify.py lines 181-195) and each element of `AsyncVerifyResource.list`. -/
def asyncVerificationOfValue (data : Value) : Except SdkError Verification :=
  match getItem data "id" with
  | .error e => .error e
  | .ok vid =>
  match getItem data "status" with
  | .error e => .error e
  | .ok vstatus =>
  match getItem data "phone" with
  | .error e => .error e
  | .ok vphone =>
  match getItem data "delivery_status" with
  | .error e => .error e
  | .ok vdel =>
  match getItem data "attempts" with
  | .error e => .error e
  | .ok vatt =>
  match getItem data "max_attempts" with
  | .error e => .error e
  | .ok vmax =>
  match getItem data "expires_at" with
  | .error e => .error e
  | .ok vexp =>
  match getItemOpt data "verified_at" with
  | .error e => .error e
  | .ok vverified =>
  match getItem data "created_at" with
  | .error e => .error e
  | .ok vcreated =>
  match getItem data "sandbox" with
  | .error e => .error e
  | .ok vsandbox =>
  match getItemOpt data "app_name" with
  | .error e => .error e
  | .ok vapp =>
  match getItemOpt data "template_id" with
  | .error e => .error e
  | .ok vtmpl =>
  match getItemOpt data "profile_id" with
  | .error e => .error e
  | .ok vprof =>
    .ok { id := vid, status := vstatus, phone := vphone, delivery_status := vdel,
          attempts := vatt, max_attempts := vmax, expires_at := vexp,
          verified_at := vverified, created_at := vcreated, sandbox := vsandbox,
          app_name := vapp, template_id := vtmpl, profile_id := vprof }

/-- Query params dict of `AsyncVerifyResource.list` (verify.py lines 204-208). -/
def asyncVerifyListParams (limit : Option Int) (status : Option String) : Obj :=
  let ps : Obj := []
  let ps := if intOptTruthy limit then ps ++ [("limit", .int (limit.getD 0))] else ps
  let ps := if strOptTruthy status then ps ++ [("status", .str (status.getD ""))] else ps
  ps

/-- Request of `AsyncVerifyResource.list` (verify.py line 210). -/
def asyncVerifyListRequest (limit : Option Int) (status : Option String) :
    RequestDescriptor :=
  { method := "GET", path := "/verify", jsonBody := none,
    params := some (asyncVerifyListParams limit status) }

/-- Response reshaping of `AsyncVerifyResource.list` (verify.py lines 211-231). -/
def asyncVerifyListReshape (data : Value) : Except SdkError VerificationListResponse :=
  match getItem data "verifications" with
  | .error e => .error e
  | .ok items =>
  match asArr items with
  | .error e => .error e
  | .ok xs =>
  match mapE asyncVerificationOfValue xs with
  | .error e => .error e
  | .ok vs =>
  match getItem data "pagination" with
  | .error e => .error e
  | .ok vpag => .ok { verifications := vs, pagination := vpag }

/-- Request construction of `AsyncMediaResource.upload` (media.py lines 113-122). -/
def asyncMediaUploadRequest (filename content_type : String) : MultipartRequest :=
  { path := "/media",
    files := [{ fieldName := "file", filename := filename, contentType := content_type }] }

/-- Response reshaping of `AsyncMediaResource.upload` (media.py lines 127-134). -/
def asyncMediaUploadReshape (data : Value) : Except SdkError MediaFile :=
  match mediaFileOfValue data with
  | .ok mf => .ok mf
  | .error e =>
    .error (.sendlyError ("Invalid API response format: " ++ e) "invalid_response" 200)

/-! ## Helper lemmas -/

/-- A successful `mapE` run preserves the length of the list. -/
theorem mapE_ok_length (f : Value → Except SdkError α) :
    ∀ (xs : List Value) (ys : List α), mapE f xs = .ok ys → ys.length = xs.length := by
  intro xs
  induction xs with
  | nil =>
    intro ys h
    simp only [mapE, Except.ok.injEq] at h
    simp [← h]
  | cons x xs ih =>
    intro ys h
    simp only [mapE] at h
    cases hf : f x with
    | error e => rw [hf] at h; exact Except.noConfusion h
    | ok y =>
      rw [hf] at h
      cases hm : mapE f xs with
      | error e => rw [hm] at h; exact Except.noConfusion h
      | ok ys' =>
        rw [hm] at h
        cases h
        simp [ih ys' hm]

/-- The keys of an appended dict fragment. -/
theorem objKeys_append (a b : Obj) : objKeys (a ++ b) = objKeys a ++ objKeys b :=
  List.map_append Prod.fst a b

/-! ## Claim theorems -/

/-- C3: `CampaignsResource.list(limit=10, offset=0, status=None)` constructs
query params containing exactly the single key `"limit"` with value 10:
`offset=0` is falsy and omitted, the absent `status` is omitted. -/
theorem claim_C3_list_params_omit_falsy :
    campaignsListRequest (some 10) (some 0) none =
      { method := "GET", path := "/campaigns", jsonBody := none,
        params := some [("limit", Value.int 10)] } := rfl

/-- C7: for every media upload call, the constructed multipart request
contains exactly one file part, that part is named `"file"`, and it carries
the caller-supplied content type. -/
theorem claim_C7_single_file_part (filename content_type : String) :
    (mediaUploadRequest filename content_type).files =
      [{ fieldName := "file", filename := filename, contentType := content_type }] ∧
    (asyncMediaUploadRequest filename content_type).files =
      [{ fieldName := "file", filename := filename, contentType := content_type }] :=
  ⟨rfl, rfl⟩

/-- C8: whenever the response mapping of `VerifyResource.check` lacks the
`remaining_attempts` key, the typed result's `remaining_attempts` field is the
absent sentinel `None` (`Value.null`), not zero. -/
theorem claim_C8_remaining_attempts_absent (m : Obj)
    (hnone : lookupKey m "remaining_attempts" = none)
    (r : CheckVerificationResponse) (hr : verifyCheckReshape (.obj m) = .ok r) :
    r.remaining_attempts = .null ∧ r.remaining_attempts ≠ .int 0 := by
  unfold verifyCheckReshape at hr
  simp only [getItem, getItemOpt, getItemD, hnone, Option.getD] at hr
  cases h1 : lookupKey m "id" with
  | none => simp [h1] at hr
  | some vid =>
    simp only [h1] at hr
    cases h2 : lookupKey m "status" with
    | none => simp [h2] at hr
    | some vstatus =>
      simp only [h2] at hr
      cases h3 : lookupKey m "phone" with
      | none => simp [h3] at hr
      | some vphone =>
        simp only [h3] at hr
        cases hr
        exact ⟨rfl, fun h => Value.noConfusion h⟩

/-- Concrete response mapping for the C8 witness: `remaining_attempts` absent. -/
def c8Response : Obj :=
  [("id", .str "ver_1"), ("status", .str "verified"), ("phone", .str "+15551234567"),
   ("verified_at", .str "2024-01-01T00:00:00Z")]

/-- The typed result `VerifyResource.check` produces on `c8Response`. -/
def c8Result : CheckVerificationResponse :=
  { id := .str "ver_1", status := .str "verified", phone := .str "+15551234567",
    verified_at := .str "2024-01-01T00:00:00Z", remaining_attempts := .null }

theorem claim_C8_witness :
    lookupKey c8Response "remaining_attempts" = none ∧
    verifyCheckReshape (.obj c8Response) = .ok c8Result ∧
    c8Result.remaining_attempts = .null ∧ c8Result.remaining_attempts ≠ .int 0 :=
  ⟨rfl, rfl, claim_C8_remaining_attempts_absent c8Response rfl c8Result rfl⟩

/-- C9: create-style and update-style methods treat empty-but-present optional
values differently: `ContactsResource.create` tests truthiness, so
`name=""` is omitted from the body, while `ContactsResource.update` tests
is-not-None, so `name=""` is included with the empty string. -/
theorem claim_C9_create_truthy_update_not_none (phone_number : String) :
    contactsCreateBody phone_number (some "") none none =
      [("phone_number", .str phone_number)] ∧
    "name" ∉ objKeys (contactsCreateBody phone_number (some "") none none) ∧
    contactsUpdateBody (some "") none none = [("name", .str "")] ∧
    lookupKey (contactsUpdateBody (some "") none none) "name" = some (.str "") := by
  refine ⟨rfl, ?_, rfl, rfl⟩
  have he : "".isEmpty = true := rfl
  simp [contactsCreateBody, objKeys, strOptTruthy, objOptTruthy, he]

/-- Inverting a successful `Contact(...)` call: the `lists` field is exactly
the value handed in. -/
theorem contactOfParts_ok_lists (m : Obj) (vl : Value) (c : Contact)
    (h : contactOfParts m vl = .ok c) : c.lists = vl := by
  unfold contactOfParts at h
  cases h1 : lookupKey m "id" with
  | none => simp [h1] at h
  | some vid =>
    simp only [h1] at h
    cases h2 : lookupKey m "phone_number" with
    | none => simp [h2] at h
    | some vphone =>
      simp only [h2] at h
      cases h3 : lookupKey m "created_at" with
      | none => simp [h3] at h
      | some vcreated =>
        simp only [h3] at h
        cases h
        rfl

/-- Inverting a successful `ContactList(...)` call: the `contacts` field is
exactly the value handed in. -/
theorem listOfParts_ok_contacts (m : Obj) (vc : Value) (l : ContactList)
    (h : listOfParts m vc = .ok l) : l.contacts = vc := by
  unfold listOfParts at h
  cases h1 : lookupKey m "id" with
  | none => simp [h1] at h
  | some vid =>
    simp only [h1] at h
    cases h2 : lookupKey m "name" with
    | none => simp [h2] at h
    | some vname =>
      simp only [h2] at h
      cases h3 : lookupKey m "created_at" with
      | none => simp [h3] at h
      | some vcreated =>
        simp only [h3] at h
        cases h
        rfl

/-- C10: when the server's response mapping binds `"lists"` (contact) or
`"contacts"` (contact list) to an empty array, the typed result's
corresponding field is `None`, identical to the case where the key is
entirely absent: the caller cannot distinguish an empty collection from a
missing one. -/
theorem claim_C10_empty_collection_is_none :
    (∀ (m : Obj) (c : Contact), lookupKey m "lists" = some (.arr []) →
      transformContact (.obj m) = .ok c → c.lists = .null) ∧
    (∀ (m : Obj) (c : Contact), lookupKey m "lists" = none →
      transformContact (.obj m) = .ok c → c.lists = .null) ∧
    (∀ (m : Obj) (l : ContactList), lookupKey m "contacts" = some (.arr []) →
      transformList (.obj m) = .ok l → l.contacts = .null) ∧
    (∀ (m : Obj) (l : ContactList), lookupKey m "contacts" = none →
      transformList (.obj m) = .ok l → l.contacts = .null) := by
  have hv : valueTruthy (.arr []) = false := rfl
  refine ⟨?_, ?_, ?_, ?_⟩
  · intro m c hl hr
    unfold transformContact at hr
    simp only [hl, hv, Bool.false_eq_true, if_false] at hr
    exact contactOfParts_ok_lists m .null c hr
  · intro m c hl hr
    unfold transformContact at hr
    simp only [hl] at hr
    exact contactOfParts_ok_lists m .null c hr
  · intro m l hl hr
    unfold transformList at hr
    simp only [hl, hv, Bool.false_eq_true, if_false] at hr
    exact listOfParts_ok_contacts m .null l hr
  · intro m l hl hr
    unfold transformList at hr
    simp only [hl] at hr
    exact listOfParts_ok_contacts m .null l hr

/-- Contact response with `"lists"` present but empty, for the C10 witness. -/
def c10ContactEmpty : Obj :=
  [("id", .str "ct_1"), ("phone_number", .str "+15551234567"),
   ("created_at", .str "2024-01-01"), ("lists", .arr [])]

/-- Contact response with `"lists"` absent, for the C10 witness. -/
def c10ContactAbsent : Obj :=
  [("id", .str "ct_1"), ("phone_number", .str "+15551234567"),
   ("created_at", .str "2024-01-01")]

/-- The typed contact both C10 inputs produce. -/
def c10Contact : Contact :=
  { id := .str "ct_1", phone_number := .str "+15551234567", name := .null,
    email := .null, metadata := .null, opted_out := .bool false,
    created_at := .str "2024-01-01", updated_at := .null, lists := .null }

/-- Contact-list response with `"contacts"` present but empty, for C10. -/
def c10ListEmpty : Obj :=
  [("id", .str "lst_1"), ("name", .str "Newsletter"),
   ("created_at", .str "2024-01-01"), ("contacts", .arr [])]

/-- The typed contact list `c10ListEmpty` produces. -/
def c10List : ContactList :=
  { id := .str "lst_1", name := .str "Newsletter", description := .null,
    contact_count := .int 0, created_at := .str "2024-01-01",
    updated_at := .null, contacts := .null, contacts_total := .null }

theorem claim_C10_witness :
    lookupKey c10ContactEmpty "lists" = some (.arr []) ∧
    transformContact (.obj c10ContactEmpty) = .ok c10Contact ∧
    lookupKey c10ContactAbsent "lists" = none ∧
    transformContact (.obj c10ContactAbsent) = .ok c10Contact ∧
    lookupKey c10ListEmpty "contacts" = some (.arr []) ∧
    transformList (.obj c10ListEmpty) = .ok c10List ∧
    c10Contact.lists = .null ∧ c10List.contacts = .null :=
  ⟨rfl, rfl, rfl, rfl, rfl, rfl,
    claim_C10_empty_collection_is_none.1 c10ContactEmpty c10Contact rfl rfl,
    claim_C10_empty_collection_is_none.2.2.1 c10ListEmpty c10List rfl rfl⟩

set_option maxHeartbeats 1600000 in
/-- C4: for every facade method, an optional parameter the caller did not
supply (`None`) never appears as a key in the constructed request body or
query params; in particular
`CampaignsResource.create("Welcome", "Hello {{name}}!", ["lst_1"])` with no
`template_id` sends exactly the three-key body with no `templateId` key. -/
theorem claim_C4_omit_absent_params :
    campaignsCreateRequest "Welcome" "Hello {{name}}!" ["lst_1"] none =
      { method := "POST", path := "/campaigns",
        jsonBody := some [("name", .str "Welcome"), ("text", .str "Hello {{name}}!"),
          ("contactListIds", .arr [.str "lst_1"])],
        params := none } ∧
    (∀ (n t : String) (ids : List String), "templateId" ∉ objKeys (campaignsCreateBody n t ids none)) ∧
    (∀ (o : Option Int) (s : Option String), "limit" ∉ objKeys (campaignsListParams none o s)) ∧
    (∀ (l : Option Int) (s : Option String), "offset" ∉ objKeys (campaignsListParams l none s)) ∧
    (∀ (l o : Option Int), "status" ∉ objKeys (campaignsListParams l o none)) ∧
    (∀ (t tid : Option String) (ids : Option (List String)), "name" ∉ objKeys (campaignsUpdateBody none t tid ids)) ∧
    (∀ (nm tid : Option String) (ids : Option (List String)), "text" ∉ objKeys (campaignsUpdateBody nm none tid ids)) ∧
    (∀ (nm t : Option String) (ids : Option (List String)), "templateId" ∉ objKeys (campaignsUpdateBody nm t none ids)) ∧
    (∀ (nm t tid : Option String), "contactListIds" ∉ objKeys (campaignsUpdateBody nm t tid none)) ∧
    (∀ (sa : String), "timezone" ∉ objKeys (campaignsScheduleBody sa none)) ∧
    (∀ (o : Option Int), "limit" ∉ objKeys (contactListsGetParams none o)) ∧
    (∀ (l : Option Int), "offset" ∉ objKeys (contactListsGetParams l none)) ∧
    (∀ (n : String), "description" ∉ objKeys (contactListsCreateBody n none)) ∧
    (∀ (d : Option String), "name" ∉ objKeys (contactListsUpdateBody none d)) ∧
    (∀ (nm : Option String), "description" ∉ objKeys (contactListsUpdateBody nm none)) ∧
    (∀ (o : Option Int) (se li : Option String), "limit" ∉ objKeys (contactsListParams none o se li)) ∧
    (∀ (l : Option Int) (se li : Option String), "offset" ∉ objKeys (contactsListParams l none se li)) ∧
    (∀ (l o : Option Int) (li : Option String), "search" ∉ objKeys (contactsListParams l o none li)) ∧
    (∀ (l o : Option Int) (se : Option String), "list_id" ∉ objKeys (contactsListParams l o se none)) ∧
    (∀ (p : String) (e : Option String) (md : Option Obj), "name" ∉ objKeys (contactsCreateBody p none e md)) ∧
    (∀ (p : String) (n : Option String) (md : Option Obj), "email" ∉ objKeys (contactsCreateBody p n none md)) ∧
    (∀ (p : String) (n e : Option String), "metadata" ∉ objKeys (contactsCreateBody p n e none)) ∧
    (∀ (e : Option String) (md : Option Obj), "name" ∉ objKeys (contactsUpdateBody none e md)) ∧
    (∀ (n : Option String) (md : Option Obj), "email" ∉ objKeys (contactsUpdateBody n none md)) ∧
    (∀ (n e : Option String), "metadata" ∉ objKeys (contactsUpdateBody n e none)) ∧
    (∀ (cs : List Value) (oi : Option String), "listId" ∉ objKeys (contactsImportBody cs none oi)) ∧
    (∀ (cs : List Value) (li : Option String), "optedInAt" ∉ objKeys (contactsImportBody cs li none)) ∧
    (∀ (tn : String) (pr an : Option String) (ts cl : Option Int), "template_id" ∉ objKeys (verifySendBody tn none pr an ts cl)) ∧
    (∀ (tn : String) (ti an : Option String) (ts cl : Option Int), "profile_id" ∉ objKeys (verifySendBody tn ti none an ts cl)) ∧
    (∀ (tn : String) (ti pr : Option String) (ts cl : Option Int), "app_name" ∉ objKeys (verifySendBody tn ti pr none ts cl)) ∧
    (∀ (tn : String) (ti pr an : Option String) (cl : Option Int), "timeout_secs" ∉ objKeys (verifySendBody tn ti pr an none cl)) ∧
    (∀ (tn : String) (ti pr an : Option String) (ts : Option Int), "code_length" ∉ objKeys (verifySendBody tn ti pr an ts none)) ∧
    (∀ (s : Option String), "limit" ∉ objKeys (verifyListParams none s)) ∧
    (∀ (l : Option Int), "status" ∉ objKeys (verifyListParams l none)) ∧
    (∀ (n t : String) (ids : List String), "templateId" ∉ objKeys (asyncCampaignsCreateBody n t ids none)) ∧
    (∀ (o : Option Int) (s : Option String), "limit" ∉ objKeys (asyncCampaignsListParams none o s)) ∧
    (∀ (l : Option Int) (s : Option String), "offset" ∉ objKeys (asyncCampaignsListParams l none s)) ∧
    (∀ (l o : Option Int), "status" ∉ objKeys (asyncCampaignsListParams l o none)) ∧
    (∀ (t tid : Option String) (ids : Option (List String)), "name" ∉ objKeys (asyncCampaignsUpdateBody none t tid ids)) ∧
    (∀ (nm tid : Option String) (ids : Option (List String)), "text" ∉ objKeys (asyncCampaignsUpdateBody nm none tid ids)) ∧
    (∀ (nm t : Option String) (ids : Option (List String)), "templateId" ∉ objKeys (asyncCampaignsUpdateBody nm t none ids)) ∧
    (∀ (nm t tid : Option String), "contactListIds" ∉ objKeys (asyncCampaignsUpdateBody nm t tid none)) ∧
    (∀ (sa : String), "timezone" ∉ objKeys (asyncCampaignsScheduleBody sa none)) ∧
    (∀ (o : Option Int), "limit" ∉ objKeys (asyncContactListsGetParams none o)) ∧
    (∀ (l : Option Int), "offset" ∉ objKeys (asyncContactListsGetParams l none)) ∧
    (∀ (n : String), "description" ∉ objKeys (asyncContactListsCreateBody n none)) ∧
    (∀ (d : Option String), "name" ∉ objKeys (asyncContactListsUpdateBody none d)) ∧
    (∀ (nm : Option String), "description" ∉ objKeys (asyncContactListsUpdateBody nm none)) ∧
    (∀ (o : Option Int) (se li : Option String), "limit" ∉ objKeys (asyncContactsListParams none o se li)) ∧
    (∀ (l : Option Int) (se li : Option String), "offset" ∉ objKeys (asyncContactsListParams l none se li)) ∧
    (∀ (l o : Option Int) (li : Option String), "search" ∉ objKeys (asyncContactsListParams l o none li)) ∧
    (∀ (l o : Option Int) (se : Option String), "list_id" ∉ objKeys (asyncContactsListParams l o se none)) ∧
    (∀ (p : String) (e : Option String) (md : Option Obj), "name" ∉ objKeys (asyncContactsCreateBody p none e md)) ∧
    (∀ (p : String) (n : Option String) (md : Option Obj), "email" ∉ objKeys (asyncContactsCreateBody p n none md)) ∧
    (∀ (p : String) (n e : Option String), "metadata" ∉ objKeys (asyncContactsCreateBody p n e none)) ∧
    (∀ (e : Option String) (md : Option Obj), "name" ∉ objKeys (asyncContactsUpdateBody none e md)) ∧
    (∀ (n : Option String) (md : Option Obj), "email" ∉ objKeys (asyncContactsUpdateBody n none md)) ∧
    (∀ (n e : Option String), "metadata" ∉ objKeys (asyncContactsUpdateBody n e none)) ∧
    (∀ (cs : List Value) (oi : Option String), "listId" ∉ objKeys (asyncContactsImportBody cs none oi)) ∧
    (∀ (cs : List Value) (li : Option String), "optedInAt" ∉ objKeys (asyncContactsImportBody cs li none)) ∧
    (∀ (tn : String) (pr an : Option String) (ts cl : Option Int), "template_id" ∉ objKeys (asyncVerifySendBody tn none pr an ts cl)) ∧
    (∀ (tn : String) (ti an : Option String) (ts cl : Option Int), "profile_id" ∉ objKeys (asyncVerifySendBody tn ti none an ts cl)) ∧
    (∀ (tn : String) (ti pr : Option String) (ts cl : Option Int), "app_name" ∉ objKeys (asyncVerifySendBody tn ti pr none ts cl)) ∧
    (∀ (tn : String) (ti pr an : Option String) (cl : Option Int), "timeout_secs" ∉ objKeys (asyncVerifySendBody tn ti pr an none cl)) ∧
    (∀ (tn : String) (ti pr an : Option String) (ts : Option Int), "code_length" ∉ objKeys (asyncVerifySendBody tn ti pr an ts none)) ∧
    (∀ (s : Option String), "limit" ∉ objKeys (asyncVerifyListParams none s)) ∧
    (∀ (l : Option Int), "status" ∉ objKeys (asyncVerifyListParams l none)) := by
  refine ⟨rfl, ?_, ?_, ?_, ?_, ?_, ?_, ?_, ?_, ?_, ?_, ?_, ?_, ?_, ?_, ?_, ?_, ?_, ?_, ?_, ?_, ?_, ?_, ?_, ?_, ?_, ?_, ?_, ?_, ?_, ?_, ?_, ?_, ?_, ?_, ?_, ?_, ?_, ?_, ?_, ?_, ?_, ?_, ?_, ?_, ?_, ?_, ?_, ?_, ?_, ?_, ?_, ?_, ?_, ?_, ?_, ?_, ?_, ?_, ?_, ?_, ?_, ?_, ?_, ?_, ?_, ?_⟩
  all_goals
    intros
    simp only [campaignsCreateBody, campaignsListParams, campaignsUpdateBody,
      campaignsScheduleBody, contactListsGetParams, contactListsCreateBody,
      contactListsUpdateBody, contactsListParams, contactsCreateBody,
      contactsUpdateBody, contactsImportBody, verifySendBody, verifyListParams,
      asyncCampaignsCreateBody, asyncCampaignsListParams, asyncCampaignsUpdateBody,
      asyncCampaignsScheduleBody, asyncContactListsGetParams,
      asyncContactListsCreateBody, asyncContactListsUpdateBody,
      asyncContactsListParams, asyncContactsCreateBody, asyncContactsUpdateBody,
      asyncContactsImportBody, asyncVerifySendBody, asyncVerifyListParams,
      intOptTruthy, strOptTruthy, objOptTruthy, strListOptTruthy]
    repeat' split
    all_goals simp_all [objKeys]

/-- Classifier for the C2 claim: is this error a typed `SendlyError`
raised by the facade (as opposed to a raw Python exception)? -/
def SdkError.isSendlyError : SdkError → Bool
  | .sendlyError _ _ _ => true
  | _ => false

/-- Errors escaping `mapE` come from the element function. -/
theorem mapE_error_elim {α : Type} {P : SdkError → Prop} (f : Value → Except SdkError α)
    (hf : ∀ x e, f x = .error e → P e) :
    ∀ (xs : List Value) (e : SdkError), mapE f xs = .error e → P e := by
  intro xs
  induction xs with
  | nil => intro e h; simp [mapE] at h
  | cons x xs ih =>
    intro e h
    simp only [mapE] at h
    cases hx : f x with
    | error e' => rw [hx] at h; cases h; exact hf x _ hx
    | ok y =>
      rw [hx] at h
      cases hm : mapE f xs with
      | error e' => rw [hm] at h; cases h; exact ih _ hm
      | ok ys => rw [hm] at h; exact Except.noConfusion h

/-- `data[k]` only raises raw KeyError / TypeError. -/
theorem getItem_error (v : Value) (k : String) (e : SdkError)
    (h : getItem v k = .error e) : e.isSendlyError = false := by
  unfold getItem at h
  cases v <;> try (cases h; rfl)
  case obj fs =>
    cases hl : lookupKey fs k with
    | none => simp only [hl] at h; cases h; rfl
    | some w => simp only [hl] at h; exact Except.noConfusion h

/-- Iterating a non-array only raises a raw TypeError. -/
theorem asArr_error (v : Value) (e : SdkError)
    (h : asArr v = .error e) : e.isSendlyError = false := by
  unfold asArr at h
  cases v <;> first
    | exact Except.noConfusion h
    | (cases h; rfl)

/-- The contact-list-entry projection only raises raw errors. -/
theorem projectContactListEntry_error (c : Value) (e : SdkError)
    (h : projectContactListEntry c = .error e) : e.isSendlyError = false := by
  unfold projectContactListEntry at h
  cases h1 : getItem c "id" with
  | error e1 => simp only [h1] at h; cases h; exact getItem_error _ _ _ h1
  | ok vid =>
    simp only [h1] at h
    cases h2 : getItem c "name" with
    | error e2 => simp only [h2] at h; cases h; exact getItem_error _ _ _ h2
    | ok vname => simp only [h2] at h; exact Except.noConfusion h

/-- The list-member projection only raises raw errors. -/
theorem projectListMember_error (c : Value) (e : SdkError)
    (h : projectListMember c = .error e) : e.isSendlyError = false := by
  unfold projectListMember at h
  cases h1 : getItem c "id" with
  | error e1 => simp only [h1] at h; cases h; exact getItem_error _ _ _ h1
  | ok vid =>
    simp only [h1] at h
    cases h2 : getItem c "phone_number" with
    | error e2 => simp only [h2] at h; cases h; exact getItem_error _ _ _ h2
    | ok vphone =>
      simp only [h2] at h
      cases h3 : getItemOpt c "name" with
      | error e3 =>
        simp only [h3] at h; cases h
        unfold getItemOpt getItemD at h3
        cases c <;> (try exact Except.noConfusion h3) <;> (cases h3; rfl)
      | ok vname =>
        simp only [h3] at h
        cases h4 : getItemOpt c "email" with
        | error e4 =>
          simp only [h4] at h; cases h
          unfold getItemOpt getItemD at h4
          cases c <;> (try exact Except.noConfusion h4) <;> (cases h4; rfl)
        | ok vemail => simp only [h4] at h; exact Except.noConfusion h

/-- The `Contact(...)` call only raises raw KeyErrors. -/
theorem contactOfParts_error (m : Obj) (vl : Value) (e : SdkError)
    (h : contactOfParts m vl = .error e) : e.isSendlyError = false := by
  unfold contactOfParts at h
  cases h1 : lookupKey m "id" with
  | none => simp only [h1] at h; cases h; rfl
  | some vid =>
    simp only [h1] at h
    cases h2 : lookupKey m "phone_number" with
    | none => simp only [h2] at h; cases h; rfl
    | some vphone =>
      simp only [h2] at h
      cases h3 : lookupKey m "created_at" with
      | none => simp only [h3] at h; cases h; rfl
      | some vcreated => simp only [h3] at h; exact Except.noConfusion h

/-- The `ContactList(...)` call only raises raw KeyErrors. -/
theorem listOfParts_error (m : Obj) (vc : Value) (e : SdkError)
    (h : listOfParts m vc = .error e) : e.isSendlyError = false := by
  unfold listOfParts at h
  cases h1 : lookupKey m "id" with
  | none => simp only [h1] at h; cases h; rfl
  | some vid =>
    simp only [h1] at h
    cases h2 : lookupKey m "name" with
    | none => simp only [h2] at h; cases h; rfl
    | some vname =>
      simp only [h2] at h
      cases h3 : lookupKey m "created_at" with
      | none => simp only [h3] at h; cases h; rfl
      | some vcreated => simp only [h3] at h; exact Except.noConfusion h

/-- `CampaignsResource._transform_campaign` only raises raw errors: a reshape
failure surfaces as a Python KeyError / TypeError, never as a `SendlyError`. -/
theorem transformCampaign_error (d : Value) (e : SdkError)
    (h : transformCampaign d = .error e) : e.isSendlyError = false := by
  cases d <;> unfold transformCampaign at h <;> try (cases h; rfl)
  case obj m =>
  cases h1 : lookupKey m "id" with
  | none => simp only [h1] at h; cases h; rfl
  | some v1 =>
  simp only [h1] at h
  cases h2 : lookupKey m "name" with
  | none => simp only [h2] at h; cases h; rfl
  | some v2 =>
  simp only [h2] at h
  cases h3 : lookupKey m "text" with
  | none => simp only [h3] at h; cases h; rfl
  | some v3 =>
  simp only [h3] at h
  cases h4 : lookupKey m "status" with
  | none => simp only [h4] at h; cases h; rfl
  | some v4 =>
  simp only [h4] at h
  cases h5 : lookupKey m "created_at" with
  | none => simp only [h5] at h; cases h; rfl
  | some v5 =>
  simp only [h5] at h
  cases h6 : lookupKey m "updated_at" with
  | none => simp only [h6] at h; cases h; rfl
  | some v6 => simp only [h6] at h; exact Except.noConfusion h

/-- `ContactsResource._transform_contact` only raises raw errors. -/
theorem transformContact_error (d : Value) (e : SdkError)
    (h : transformContact d = .error e) : e.isSendlyError = false := by
  cases d <;> unfold transformContact at h <;> try (cases h; rfl)
  case obj m =>
  cases hL : lookupKey m "lists" with
  | none =>
    simp only [hL] at h
    exact contactOfParts_error m .null e h
  | some v =>
    simp only [hL] at h
    cases hvt : valueTruthy v with
    | false =>
      simp only [hvt, Bool.false_eq_true, if_false] at h
      exact contactOfParts_error m .null e h
    | true =>
      simp only [hvt, if_true] at h
      cases ha : asArr v with
      | error e' => simp only [ha] at h; cases h; exact asArr_error _ _ ha
      | ok xs =>
        simp only [ha] at h
        cases hm : mapE projectContactListEntry xs with
        | error e' =>
          simp only [hm] at h; cases h
          exact mapE_error_elim projectContactListEntry projectContactListEntry_error xs _ hm
        | ok ys =>
          simp only [hm] at h
          exact contactOfParts_error m (.arr ys) e h

/-- `ContactListsResource._transform_list` only raises raw errors. -/
theorem transformList_error (d : Value) (e : SdkError)
    (h : transformList d = .error e) : e.isSendlyError = false := by
  cases d <;> unfold transformList at h <;> try (cases h; rfl)
  case obj m =>
  cases hL : lookupKey m "contacts" with
  | none =>
    simp only [hL] at h
    exact listOfParts_error m .null e h
  | some v =>
    simp only [hL] at h
    cases hvt : valueTruthy v with
    | false =>
      simp only [hvt, Bool.false_eq_true, if_false] at h
      exact listOfParts_error m .null e h
    | true =>
      simp only [hvt, if_true] at h
      cases ha : asArr v with
      | error e' => simp only [ha] at h; cases h; exact asArr_error _ _ ha
      | ok xs =>
        simp only [ha] at h
        cases hm : mapE projectListMember xs with
        | error e' =>
          simp only [hm] at h; cases h
          exact mapE_error_elim projectListMember projectListMember_error xs _ hm
        | ok ys =>
          simp only [hm] at h
          exact listOfParts_error m (.arr ys) e h

/-- C2 counterexample: the claim fails as stated. The reshaping step of the
campaigns facade (`_transform_campaign`, used by `create`, `get`, `list`, ...)
propagates the raw parse exception — here a Python `KeyError` for the missing
required field `id` — instead of raising a wrapped validation error. -/
theorem claim_C2_counterexample :
    transformCampaign (Value.obj [("name", Value.str "Welcome")]) =
      .error (.keyError "id") ∧
    (SdkError.keyError "id").isSendlyError = false :=
  ⟨rfl, rfl⟩

/-- C2 amended: only the media upload facade wraps reshape failures into a
typed validation error (a `SendlyError` with code `invalid_response` whose
message embeds the original parse failure); the JSON-body facades' transforms
(campaigns, contacts, contact lists) propagate the raw parse exception
(`KeyError`/`TypeError`) unwrapped. -/
theorem claim_C2_amended :
    (∀ (d : Value) (e : String), mediaFileOfValue d = .error e →
      mediaUploadReshape d =
        .error (.sendlyError ("Invalid API response format: " ++ e)
          "invalid_response" 200)) ∧
    (∀ (d : Value) (e : SdkError), transformCampaign d = .error e →
      e.isSendlyError = false) ∧
    (∀ (d : Value) (e : SdkError), transformContact d = .error e →
      e.isSendlyError = false) ∧
    (∀ (d : Value) (e : SdkError), transformList d = .error e →
      e.isSendlyError = false) := by
  refine ⟨?_, transformCampaign_error, transformContact_error, transformList_error⟩
  intro d e h
  unfold mediaUploadReshape
  rw [h]

theorem claim_C2_witness :
    mediaFileOfValue (Value.obj [("id", Value.str "med_1")]) =
      .error "1 validation error for MediaFile: url Field required" ∧
    mediaUploadReshape (Value.obj [("id", Value.str "med_1")]) =
      .error (.sendlyError
        "Invalid API response format: 1 validation error for MediaFile: url Field required"
        "invalid_response" 200) ∧
    transformCampaign (Value.obj []) = .error (.keyError "id") ∧
    (SdkError.keyError "id").isSendlyError = false :=
  ⟨rfl, claim_C2_amended.1 (Value.obj [("id", Value.str "med_1")]) _ rfl, rfl,
    claim_C2_amended.2.1 (Value.obj []) _ rfl⟩

/-- C1 counterexample: the claim fails as stated. `ContactListsResource.list`
returns a bare collection: two source JSONs that differ in their `total`,
`limit` and `offset` fields reshape to the identical typed result, which
carries only the `lists` collection and no pagination metadata. -/
theorem claim_C1_counterexample :
    contactListsListReshape (Value.obj [("lists", Value.arr []),
      ("total", Value.int 1), ("limit", Value.int 10), ("offset", Value.int 0)]) =
      .ok { lists := [] } ∧
    contactListsListReshape (Value.obj [("lists", Value.arr []),
      ("total", Value.int 99), ("limit", Value.int 7), ("offset", Value.int 3)]) =
      .ok { lists := [] } :=
  ⟨rfl, rfl⟩

/-- C1 amended: `CampaignsResource.list` and `ContactsResource.list` bundle
the items with `total`, `limit`, `offset` passed through unchanged;
`VerifyResource.list` bundles the items with the source's `pagination`
mapping passed through unchanged as a single field; while
`ContactListsResource.list` returns only the collection without pagination
metadata. For all four, the typed result's item count equals the length of
the items array in the source JSON. -/
theorem claim_C1_amended :
    (∀ (d : Value) (r : CampaignListResponse), campaignsListReshape d = .ok r →
      getItem d "total" = .ok r.total ∧ getItem d "limit" = .ok r.limit ∧
      getItem d "offset" = .ok r.offset ∧
      ∀ xs, getItem d "campaigns" = .ok (.arr xs) → r.campaigns.length = xs.length) ∧
    (∀ (d : Value) (r : ContactListResponse), contactsListReshape d = .ok r →
      getItem d "total" = .ok r.total ∧ getItem d "limit" = .ok r.limit ∧
      getItem d "offset" = .ok r.offset ∧
      ∀ xs, getItem d "contacts" = .ok (.arr xs) → r.contacts.length = xs.length) ∧
    (∀ (d : Value) (r : VerificationListResponse), verifyListReshape d = .ok r →
      getItem d "pagination" = .ok r.pagination ∧
      ∀ xs, getItem d "verifications" = .ok (.arr xs) →
        r.verifications.length = xs.length) ∧
    (∀ (d : Value) (r : ContactListsResponse), contactListsListReshape d = .ok r →
      ∀ xs, getItem d "lists" = .ok (.arr xs) → r.lists.length = xs.length) := by
  refine ⟨?_, ?_, ?_, ?_⟩
  · intro d r h
    unfold campaignsListReshape at h
    cases hc : getItem d "campaigns" with
    | error e => simp only [hc] at h; exact Except.noConfusion h
    | ok items =>
    simp only [hc] at h
    cases ha : asArr items with
    | error e => simp only [ha] at h; exact Except.noConfusion h
    | ok xs0 =>
    simp only [ha] at h
    cases hm : mapE transformCampaign xs0 with
    | error e => simp only [hm] at h; exact Except.noConfusion h
    | ok cs =>
    simp only [hm] at h
    cases ht : getItem d "total" with
    | error e => simp only [ht] at h; exact Except.noConfusion h
    | ok vtotal =>
    simp only [ht] at h
    cases hl : getItem d "limit" with
    | error e => simp only [hl] at h; exact Except.noConfusion h
    | ok vlimit =>
    simp only [hl] at h
    cases ho : getItem d "offset" with
    | error e => simp only [ho] at h; exact Except.noConfusion h
    | ok voffset =>
    simp only [ho] at h
    cases h
    refine ⟨rfl, rfl, rfl, ?_⟩
    intro xs hxs
    cases hxs
    unfold asArr at ha
    cases ha
    exact mapE_ok_length _ _ _ hm
  · intro d r h
    unfold contactsListReshape at h
    cases hc : getItem d "contacts" with
    | error e => simp only [hc] at h; exact Except.noConfusion h
    | ok items =>
    simp only [hc] at h
    cases ha : asArr items with
    | error e => simp only [ha] at h; exact Except.noConfusion h
    | ok xs0 =>
    simp only [ha] at h
    cases hm : mapE transformContact xs0 with
    | error e => simp only [hm] at h; exact Except.noConfusion h
    | ok cs =>
    simp only [hm] at h
    cases ht : getItem d "total" with
    | error e => simp only [ht] at h; exact Except.noConfusion h
    | ok vtotal =>
    simp only [ht] at h
    cases hl : getItem d "limit" with
    | error e => simp only [hl] at h; exact Except.noConfusion h
    | ok vlimit =>
    simp only [hl] at h
    cases ho : getItem d "offset" with
    | error e => simp only [ho] at h; exact Except.noConfusion h
    | ok voffset =>
    simp only [ho] at h
    cases h
    refine ⟨rfl, rfl, rfl, ?_⟩
    intro xs hxs
    cases hxs
    unfold asArr at ha
    cases ha
    exact mapE_ok_length _ _ _ hm
  · intro d r h
    unfold verifyListReshape at h
    cases hc : getItem d "verifications" with
    | error e => simp only [hc] at h; exact Except.noConfusion h
    | ok items =>
    simp only [hc] at h
    cases ha : asArr items with
    | error e => simp only [ha] at h; exact Except.noConfusion h
    | ok xs0 =>
    simp only [ha] at h
    cases hm : mapE verificationOfValue xs0 with
    | error e => simp only [hm] at h; exact Except.noConfusion h
    | ok vs =>
    simp only [hm] at h
    cases hp : getItem d "pagination" with
    | error e => simp only [hp] at h; exact Except.noConfusion h
    | ok vpag =>
    simp only [hp] at h
    cases h
    refine ⟨rfl, ?_⟩
    intro xs hxs
    cases hxs
    unfold asArr at ha
    cases ha
    exact mapE_ok_length _ _ _ hm
  · intro d r h
    unfold contactListsListReshape at h
    cases hc : getItem d "lists" with
    | error e => simp only [hc] at h; exact Except.noConfusion h
    | ok items =>
    simp only [hc] at h
    cases ha : asArr items with
    | error e => simp only [ha] at h; exact Except.noConfusion h
    | ok xs0 =>
    simp only [ha] at h
    cases hm : mapE transformList xs0 with
    | error e => simp only [hm] at h; exact Except.noConfusion h
    | ok ls =>
    simp only [hm] at h
    cases h
    intro xs hxs
    cases hxs
    unfold asArr at ha
    cases ha
    exact mapE_ok_length _ _ _ hm

/-- A minimal campaign JSON object for the C1 witness. -/
def c1CampaignItem : Obj :=
  [("id", .str "cmp_1"), ("name", .str "Welcome"), ("text", .str "Hi"),
   ("status", .str "draft"), ("created_at", .str "t0"), ("updated_at", .str "t1")]

/-- A `GET /campaigns` response with one item, for the C1 witness. -/
def c1CampaignsData : Value :=
  .obj [("campaigns", .arr [.obj c1CampaignItem]), ("total", .int 1),
        ("limit", .int 50), ("offset", .int 0)]

/-- The typed campaign `c1CampaignItem` transforms to. -/
def c1Campaign : Campaign :=
  { id := .str "cmp_1", name := .str "Welcome", text := .str "Hi",
    template_id := .null, contact_list_ids := .arr [], status := .str "draft",
    recipient_count := .int 0, sent_count := .int 0, delivered_count := .int 0,
    failed_count := .int 0, estimated_credits := .int 0, credits_used := .int 0,
    scheduled_at := .null, timezone := .null, started_at := .null,
    completed_at := .null, created_at := .str "t0", updated_at := .str "t1" }

/-- The typed list response `c1CampaignsData` reshapes to. -/
def c1CampaignsResult : CampaignListResponse :=
  { campaigns := [c1Campaign], total := .int 1, limit := .int 50, offset := .int 0 }

theorem claim_C1_witness :
    campaignsListReshape c1CampaignsData = .ok c1CampaignsResult ∧
    getItem c1CampaignsData "total" = .ok c1CampaignsResult.total ∧
    getItem c1CampaignsData "limit" = .ok c1CampaignsResult.limit ∧
    getItem c1CampaignsData "offset" = .ok c1CampaignsResult.offset ∧
    c1CampaignsResult.campaigns.length = [Value.obj c1CampaignItem].length :=
  ⟨rfl, (claim_C1_amended.1 c1CampaignsData c1CampaignsResult rfl).1,
    (claim_C1_amended.1 c1CampaignsData c1CampaignsResult rfl).2.1,
    (claim_C1_amended.1 c1CampaignsData c1CampaignsResult rfl).2.2.1,
    (claim_C1_amended.1 c1CampaignsData c1CampaignsResult rfl).2.2.2
      [Value.obj c1CampaignItem] rfl⟩

/-- Read back a `Campaign` field by its name (the names are shared between
the typed object and the API response). -/
def campaignField (c : Campaign) : String → Option Value
  | "id" => some c.id
  | "name" => some c.name
  | "text" => some c.text
  | "template_id" => some c.template_id
  | "contact_list_ids" => some c.contact_list_ids
  | "status" => some c.status
  | "recipient_count" => some c.recipient_count
  | "sent_count" => some c.sent_count
  | "delivered_count" => some c.delivered_count
  | "failed_count" => some c.failed_count
  | "estimated_credits" => some c.estimated_credits
  | "credits_used" => some c.credits_used
  | "scheduled_at" => some c.scheduled_at
  | "timezone" => some c.timezone
  | "started_at" => some c.started_at
  | "completed_at" => some c.completed_at
  | "created_at" => some c.created_at
  | "updated_at" => some c.updated_at
  | _ => none

/-- Read back a `Verification` field by its name. -/
def verificationField (r : Verification) : String → Option Value
  | "id" => some r.id
  | "status" => some r.status
  | "phone" => some r.phone
  | "delivery_status" => some r.delivery_status
  | "attempts" => some r.attempts
  | "max_attempts" => some r.max_attempts
  | "expires_at" => some r.expires_at
  | "verified_at" => some r.verified_at
  | "created_at" => some r.created_at
  | "sandbox" => some r.sandbox
  | "app_name" => some r.app_name
  | "template_id" => some r.template_id
  | "profile_id" => some r.profile_id
  | _ => none

/-- Read back a `Contact` field by its name. -/
def contactField (c : Contact) : String → Option Value
  | "id" => some c.id
  | "phone_number" => some c.phone_number
  | "name" => some c.name
  | "email" => some c.email
  | "metadata" => some c.metadata
  | "opted_out" => some c.opted_out
  | "created_at" => some c.created_at
  | "updated_at" => some c.updated_at
  | "lists" => some c.lists
  | _ => none

/-- Contact response for the C6 counterexample: `"lists"` is present in the
mapping (bound to the empty array) and `lists` is a field of the typed
object, yet the read-back value differs from the source value. -/
def c6ContactData : Obj :=
  [("id", .str "ct_9"), ("phone_number", .str "+15550000000"),
   ("created_at", .str "t0"), ("lists", .arr [])]

/-- The typed contact `c6ContactData` transforms to. -/
def c6Contact : Contact :=
  { id := .str "ct_9", phone_number := .str "+15550000000", name := .null,
    email := .null, metadata := .null, opted_out := .bool false,
    created_at := .str "t0", updated_at := .null, lists := .null }

/-- C6 counterexample: the claim fails as stated for the contact transform.
The field name `lists` is present in both the source mapping (value `[]`) and
the typed object, but reading it back yields `None`, not `[]`. -/
theorem claim_C6_counterexample :
    transformContact (.obj c6ContactData) = .ok c6Contact ∧
    lookupKey c6ContactData "lists" = some (.arr []) ∧
    contactField c6Contact "lists" = some .null ∧
    Value.null ≠ Value.arr [] :=
  ⟨rfl, rfl, rfl, fun h => nomatch h⟩

set_option maxHeartbeats 1000000 in
/-- C6 amended: the round trip holds for the campaign transform and the
verification constructor — every field name present in both the source
mapping and the typed object reads back with the identical value — but not
for the contact / contact-list transforms, whose `lists` / `contacts` fields
are projected and empty-normalized. -/
theorem claim_C6_amended :
    (∀ (m : Obj) (c : Campaign), transformCampaign (.obj m) = .ok c →
      ∀ (k : String) (v w : Value), lookupKey m k = some v →
        campaignField c k = some w → w = v) ∧
    (∀ (m : Obj) (r : Verification), verificationOfValue (.obj m) = .ok r →
      ∀ (k : String) (v w : Value), lookupKey m k = some v →
        verificationField r k = some w → w = v) := by
  constructor
  · intro m c h k v w hv hw
    unfold transformCampaign at h
    cases h1 : lookupKey m "id" with
    | none => simp [h1] at h
    | some v1 =>
    simp only [h1] at h
    cases h2 : lookupKey m "name" with
    | none => simp [h2] at h
    | some v2 =>
    simp only [h2] at h
    cases h3 : lookupKey m "text" with
    | none => simp [h3] at h
    | some v3 =>
    simp only [h3] at h
    cases h4 : lookupKey m "status" with
    | none => simp [h4] at h
    | some v4 =>
    simp only [h4] at h
    cases h5 : lookupKey m "created_at" with
    | none => simp [h5] at h
    | some v5 =>
    simp only [h5] at h
    cases h6 : lookupKey m "updated_at" with
    | none => simp [h6] at h
    | some v6 =>
    simp only [h6] at h
    cases h
    unfold campaignField at hw
    split at hw <;> simp_all
  · intro m r h k v w hv hw
    unfold verificationOfValue at h
    simp only [getItem, getItemOpt, getItemD] at h
    cases h1 : lookupKey m "id" with
    | none => simp [h1] at h
    | some v1 =>
    simp only [h1] at h
    cases h2 : lookupKey m "status" with
    | none => simp [h2] at h
    | some v2 =>
    simp only [h2] at h
    cases h3 : lookupKey m "phone" with
    | none => simp [h3] at h
    | some v3 =>
    simp only [h3] at h
    cases h4 : lookupKey m "delivery_status" with
    | none => simp [h4] at h
    | some v4 =>
    simp only [h4] at h
    cases h5 : lookupKey m "attempts" with
    | none => simp [h5] at h
    | some v5 =>
    simp only [h5] at h
    cases h6 : lookupKey m "max_attempts" with
    | none => simp [h6] at h
    | some v6 =>
    simp only [h6] at h
    cases h7 : lookupKey m "expires_at" with
    | none => simp [h7] at h
    | some v7 =>
    simp only [h7] at h
    cases h8 : lookupKey m "created_at" with
    | none => simp [h8] at h
    | some v8 =>
    simp only [h8] at h
    cases h9 : lookupKey m "sandbox" with
    | none => simp [h9] at h
    | some v9 =>
    simp only [h9] at h
    cases h
    unfold verificationField at hw
    split at hw <;> simp_all

theorem claim_C6_witness :
    transformCampaign (.obj c1CampaignItem) = .ok c1Campaign ∧
    lookupKey c1CampaignItem "name" = some (.str "Welcome") ∧
    campaignField c1Campaign "name" = some (.str "Welcome") ∧
    Value.str "Welcome" = Value.str "Welcome" :=
  ⟨rfl, rfl, rfl,
    claim_C6_amended.1 c1CampaignItem c1Campaign rfl "name"
      (.str "Welcome") (.str "Welcome") rfl rfl⟩

set_option maxHeartbeats 1600000 in
/-- C5: for every facade operation, the synchronous and asynchronous variants
construct identical requests (method, path, body, params — and for media, the
multipart file parts) and reshape response mappings into identical typed
results; the two variants differ only in the suspension mechanism, which the
embedding abstracts away. -/
theorem claim_C5_sync_async_equal :
    (∀ (n t : String) (ids : List String) (tid : Option String), campaignsCreateRequest n t ids tid = asyncCampaignsCreateRequest n t ids tid) ∧
    (∀ (l o : Option Int) (s : Option String), campaignsListRequest l o s = asyncCampaignsListRequest l o s) ∧
    (∀ (cid : String), campaignsGetRequest cid = asyncCampaignsGetRequest cid) ∧
    (∀ (cid : String) (n t tid : Option String) (ids : Option (List String)), campaignsUpdateRequest cid n t tid ids = asyncCampaignsUpdateRequest cid n t tid ids) ∧
    (∀ (cid : String), campaignsDeleteRequest cid = asyncCampaignsDeleteRequest cid) ∧
    (∀ (cid : String), campaignsPreviewRequest cid = asyncCampaignsPreviewRequest cid) ∧
    (∀ (cid : String), campaignsSendRequest cid = asyncCampaignsSendRequest cid) ∧
    (∀ (cid sa : String) (tz : Option String), campaignsScheduleRequest cid sa tz = asyncCampaignsScheduleRequest cid sa tz) ∧
    (∀ (cid : String), campaignsCancelRequest cid = asyncCampaignsCancelRequest cid) ∧
    (∀ (cid : String), campaignsCloneRequest cid = asyncCampaignsCloneRequest cid) ∧
    (contactListsListRequest = asyncContactListsListRequest) ∧
    (∀ (lid : String) (l o : Option Int), contactListsGetRequest lid l o = asyncContactListsGetRequest lid l o) ∧
    (∀ (n : String) (d : Option String), contactListsCreateRequest n d = asyncContactListsCreateRequest n d) ∧
    (∀ (lid : String) (n d : Option String), contactListsUpdateRequest lid n d = asyncContactListsUpdateRequest lid n d) ∧
    (∀ (lid : String), contactListsDeleteRequest lid = asyncContactListsDeleteRequest lid) ∧
    (∀ (lid : String) (cids : List String), contactListsAddContactsRequest lid cids = asyncContactListsAddContactsRequest lid cids) ∧
    (∀ (lid cid : String), contactListsRemoveContactRequest lid cid = asyncContactListsRemoveContactRequest lid cid) ∧
    (∀ (l o : Option Int) (se li : Option String), contactsListRequest l o se li = asyncContactsListRequest l o se li) ∧
    (∀ (cid : String), contactsGetRequest cid = asyncContactsGetRequest cid) ∧
    (∀ (p : String) (n e : Option String) (md : Option Obj), contactsCreateRequest p n e md = asyncContactsCreateRequest p n e md) ∧
    (∀ (cid : String) (n e : Option String) (md : Option Obj), contactsUpdateRequest cid n e md = asyncContactsUpdateRequest cid n e md) ∧
    (∀ (cid : String), contactsDeleteRequest cid = asyncContactsDeleteRequest cid) ∧
    (∀ (cs : List Value) (li oi : Option String), contactsImportRequest cs li oi = asyncContactsImportRequest cs li oi) ∧
    (∀ (tn : String) (ti pr an : Option String) (ts cl : Option Int), verifySendRequest tn ti pr an ts cl = asyncVerifySendRequest tn ti pr an ts cl) ∧
    (∀ (vid code : String), verifyCheckRequest vid code = asyncVerifyCheckRequest vid code) ∧
    (∀ (vid : String), verifyGetRequest vid = asyncVerifyGetRequest vid) ∧
    (∀ (l : Option Int) (s : Option String), verifyListRequest l s = asyncVerifyListRequest l s) ∧
    (∀ (fn ct : String), mediaUploadRequest fn ct = asyncMediaUploadRequest fn ct) ∧
    (∀ (v : Value), transformCampaign v = asyncTransformCampaign v) ∧
    (∀ (v : Value), campaignsListReshape v = asyncCampaignsListReshape v) ∧
    (∀ (v : Value), campaignsPreviewReshape v = asyncCampaignsPreviewReshape v) ∧
    (∀ (v : Value), contactListsListReshape v = asyncContactListsListReshape v) ∧
    (∀ (v : Value), contactListsAddContactsReshape v = asyncContactListsAddContactsReshape v) ∧
    (∀ (v : Value), transformList v = asyncTransformList v) ∧
    (∀ (v : Value), projectListMember v = asyncProjectListMember v) ∧
    (∀ (v : Value), transformContact v = asyncTransformContact v) ∧
    (∀ (v : Value), projectContactListEntry v = asyncProjectContactListEntry v) ∧
    (∀ (v : Value), contactsListReshape v = asyncContactsListReshape v) ∧
    (∀ (v : Value), contactsImportReshape v = asyncContactsImportReshape v) ∧
    (∀ (v : Value), verifySendReshape v = asyncVerifySendReshape v) ∧
    (∀ (v : Value), verifyCheckReshape v = asyncVerifyCheckReshape v) ∧
    (∀ (v : Value), verificationOfValue v = asyncVerificationOfValue v) ∧
    (∀ (v : Value), verifyListReshape v = asyncVerifyListReshape v) ∧
    (∀ (v : Value), mediaUploadReshape v = asyncMediaUploadReshape v) := by
  refine ⟨?_, ?_, ?_, ?_, ?_, ?_, ?_, ?_, ?_, ?_, ?_, ?_, ?_, ?_, ?_, ?_, ?_, ?_, ?_, ?_, ?_, ?_, ?_, ?_, ?_, ?_, ?_, ?_, ?_, ?_, ?_, ?_, ?_, ?_, ?_, ?_, ?_, ?_, ?_, ?_, ?_, ?_, ?_, ?_⟩
  all_goals intros
  all_goals rfl

theorem claim_C4_witness :
    campaignsCreateRequest "Welcome" "Hello {{name}}!" ["lst_1"] none =
      { method := "POST", path := "/campaigns",
        jsonBody := some [("name", .str "Welcome"), ("text", .str "Hello {{name}}!"),
          ("contactListIds", .arr [.str "lst_1"])],
        params := none } ∧
    "templateId" ∉ objKeys (campaignsCreateBody "Welcome" "Hello {{name}}!" ["lst_1"] none) :=
  ⟨claim_C4_omit_absent_params.1,
    claim_C4_omit_absent_params.2.1 "Welcome" "Hello {{name}}!" ["lst_1"]⟩

theorem claim_C9_witness :
    contactsCreateBody "+15551234567" (some "") none none =
      [("phone_number", .str "+15551234567")] ∧
    "name" ∉ objKeys (contactsCreateBody "+15551234567" (some "") none none) ∧
    contactsUpdateBody (some "") none none = [("name", .str "")] ∧
    lookupKey (contactsUpdateBody (some "") none none) "name" = some (.str "") :=
  claim_C9_create_truthy_update_not_none "+15551234567"
